import Mathlib

/-!
Express-Jobly: the query builders of the Company and Job models.

A shallow embedding of `src/models/company.js`, `src/models/job.js` and the
`GET /companies` handler of `src/routes/companies.js`.

* JavaScript values are the inductive type `JSVal`.  Numbers are the doubles,
  held by their exact value; the operators the source applies to them (`>`,
  unary `+`, `isNaN`, truthiness, template-literal conversion) follow
  ECMAScript: numerals are rounded to the nearest double and numbers are
  printed with the fewest digits that read back as the same double.
  Strings are lower-cased by the default case conversion of Unicode.
* `db.query(text, values)` is an explicit event: every model function
  returns an `Outcome`, the result (value or thrown error) together with
  the list of statements that were sent to the store, in order.  The store
  itself is a parameter `db : Db` that answers a statement with rows; for
  `Job.create` the `jobs` table is a concrete list of rows, and for
  `Company.get` the two tables are concrete lists of rows.
-/

set_option maxRecDepth 100000

namespace Jobly

/-! ## JavaScript values -/

/-- A JavaScript number.  Every double is exactly one of these values: `NaN`,
an infinity, the negative zero, an integer `fin z` (`fin 0` is the positive
zero), or a non-integer `dyadic m k`, the value `m / 2^k` with `m` odd and
`1 ≤ k`.  Values of the type that are no double (an integer needing more than
53 significant bits, say) do not occur as inputs; the operations below read
them by their value. -/
inductive JSNum where
  | nan
  | fin (z : Int)
  | negZero
  | dyadic (m : Int) (k : Nat)
  | inf (negative : Bool)
  deriving DecidableEq, Repr

/-- The JavaScript values that reach the model functions. -/
inductive JSVal where
  | undefined
  | null
  | bool (b : Bool)
  | num (x : JSNum)
  | str (s : String)
  deriving DecidableEq, Repr

/-- ECMAScript `WhiteSpace` and `LineTerminator` code points, the characters
removed by `String.prototype.trim` and skipped by `ToNumber` on strings. -/
def isJSWhiteSpace (c : Char) : Bool :=
  let n := c.toNat
  n == 0x09 || n == 0x0A || n == 0x0B || n == 0x0C || n == 0x0D || n == 0x20 ||
  n == 0xA0 || n == 0x1680 || (0x2000 ≤ n && n ≤ 0x200A) || n == 0x2028 ||
  n == 0x2029 || n == 0x202F || n == 0x205F || n == 0x3000 || n == 0xFEFF

/-- `String.prototype.trim` on a list of characters. -/
def trimChars (cs : List Char) : List Char :=
  ((cs.dropWhile isJSWhiteSpace).reverse.dropWhile isJSWhiteSpace).reverse

/-- `s.trim()`. -/
def jsTrim (s : String) : String := ⟨trimChars s.data⟩

/-! ### Numbers: rounding, numerals, printing -/

/-- The power `2^n`, by repeated doubling. -/
def twoPow : Nat → Nat
  | 0 => 1
  | n + 1 => 2 * twoPow n

/-- The power `10^n`, by repeated multiplication. -/
def tenPow : Nat → Nat
  | 0 => 1
  | n + 1 => 10 * tenPow n

/-- Number of binary digits of `n` (0 for 0); `fuel` bounds the steps. -/
def bitLen : Nat → Nat → Nat
  | 0, _ => 0
  | fuel + 1, n => if n = 0 then 0 else bitLen fuel (n / 2) + 1

/-- Cancels factors of two: `(m, k)` stands for `m / 2^k`; at most `fuel` steps. -/
def stripTwos : Nat → Nat → Nat → Nat × Nat
  | 0, m, k => (m, k)
  | fuel + 1, m, k =>
    if k = 0 ∨ m % 2 = 1 then (m, k) else stripTwos fuel (m / 2) (k - 1)

/-- The number with sign `neg` and magnitude `m * 2^q`. -/
def mkFinite (neg : Bool) (m : Nat) (q : Int) : JSNum :=
  if m = 0 then (if neg then .negZero else .fin 0)
  else
    match q with
    | Int.ofNat e =>
      .fin (if neg then -((m * twoPow e : Nat) : Int) else ((m * twoPow e : Nat) : Int))
    | Int.negSucc e =>
      let r := stripTwos (e + 1) m (e + 1)
      if r.2 = 0 then .fin (if neg then -(r.1 : Int) else (r.1 : Int))
      else .dyadic (if neg then -(r.1 : Int) else (r.1 : Int)) r.2

/-- The double nearest to `num / den` (ties to the even significand), with sign `neg`;
`den` is positive. -/
def roundToDouble (neg : Bool) (num den : Nat) : JSNum :=
  if num = 0 then (if neg then .negZero else .fin 0)
  else
    let a := bitLen num num
    let b := bitLen den den
    let e : Int :=
      if den * twoPow a ≤ num * twoPow b then (a : Int) - (b : Int)
      else (a : Int) - (b : Int) - 1
    let q : Int := max (e - 52) (-1074)
    let top := if 0 ≤ q then num else num * twoPow (-q).toNat
    let bot := if 0 ≤ q then den * twoPow q.toNat else den
    let m0 := top / bot
    let r := top % bot
    let m := if bot < 2 * r ∨ (2 * r = bot ∧ m0 % 2 = 1) then m0 + 1 else m0
    if 971 < q ∨ (q = 971 ∧ twoPow 53 ≤ m) then .inf neg else mkFinite neg m q

/-- Number of decimal digits of `n` (0 for 0); `fuel` bounds the steps. -/
def decLen : Nat → Nat → Nat
  | 0, _ => 0
  | fuel + 1, n => if n = 0 then 0 else decLen fuel (n / 10) + 1

/-- The decimal digits `0` to `9`. -/
def isDecimalDigit (c : Char) : Bool := 48 ≤ c.toNat && c.toNat ≤ 57

/-- The natural number a list of decimal digits denotes. -/
def digitsNat (ds : List Char) : Nat := ds.foldl (fun acc c => acc * 10 + (c.toNat - 48)) 0

/-- Leading decimal digits of a text: the value read on top of `acc`, the number
of digits read, and the remaining characters. -/
def takeDigits : List Char → Nat → Nat → Nat × Nat × List Char
  | [], acc, n => (acc, n, [])
  | c :: cs, acc, n =>
    if isDecimalDigit c then takeDigits cs (acc * 10 + (c.toNat - 48)) (n + 1)
    else (acc, n, c :: cs)

/-- Value of a hexadecimal digit. -/
def hexDigit (c : Char) : Option Nat :=
  let n := c.toNat
  if 48 ≤ n ∧ n ≤ 57 then some (n - 48)
  else if 97 ≤ n ∧ n ≤ 102 then some (n - 87)
  else if 65 ≤ n ∧ n ≤ 70 then some (n - 55)
  else none

/-- Value of a list of digits in the given radix, on top of `acc`; `none` when a
character is not a digit of that radix. -/
def radixValue (radix : Nat) : List Char → Nat → Option Nat
  | [], acc => some acc
  | c :: cs, acc =>
    match hexDigit c with
    | some d => if d < radix then radixValue radix cs (acc * radix + d) else none
    | none => none

/-- `DecimalDigits` and nothing else: its value. -/
def digitsOnly (cs : List Char) : Option Nat :=
  match takeDigits cs 0 0 with
  | (v, n, []) => if n = 0 then none else some v
  | _ => none

/-- `SignedInteger` of an `ExponentPart`. -/
def parseExponent : List Char → Option Int
  | '+' :: ds => (digitsOnly ds).map fun n => (n : Int)
  | '-' :: ds => (digitsOnly ds).map fun n => -(n : Int)
  | ds => (digitsOnly ds).map fun n => (n : Int)

/-- The double nearest to `mant * 10^e`, with sign `neg`.  Values of magnitude
`10^309` and above are infinite and values below `10^-325` are zero without
computing the power. -/
def decimalToDouble (neg : Bool) (mant : Nat) (e : Int) : JSNum :=
  if mant = 0 then (if neg then .negZero else .fin 0)
  else
    let d : Int := (decLen mant mant : Nat)
    if 309 ≤ d - 1 + e then .inf neg
    else if d + e ≤ -325 then (if neg then .negZero else .fin 0)
    else if 0 ≤ e then roundToDouble neg (mant * tenPow e.toNat) 1
    else roundToDouble neg mant (tenPow (-e).toNat)

/-- `StrUnsignedDecimalLiteral` with the sign read before it: `Infinity`, or
digits with an optional fraction and an optional exponent part; anything else
is `NaN`. -/
def parseUnsignedDecimal (neg : Bool) (cs : List Char) : JSNum :=
  if cs = ['I', 'n', 'f', 'i', 'n', 'i', 't', 'y'] then .inf neg
  else
    let whole := takeDigits cs 0 0
    let withFraction : Option (Nat × Nat × List Char) :=
      match whole.2.2 with
      | '.' :: rest =>
        let frac := takeDigits rest whole.1 0
        if 1 ≤ whole.2.1 + frac.2.1 then some (frac.1, frac.2.1, frac.2.2) else none
      | rest => if 1 ≤ whole.2.1 then some (whole.1, 0, rest) else none
    match withFraction with
    | none => .nan
    | some (mant, fracDigits, rest) =>
      let exponent : Option Int :=
        match rest with
        | [] => some 0
        | 'e' :: ds => parseExponent ds
        | 'E' :: ds => parseExponent ds
        | _ => none
      match exponent with
      | none => .nan
      | some e => decimalToDouble neg mant (e - (fracDigits : Int))

/-- A `NonDecimalIntegerLiteral` body: at least one digit of the radix. -/
def parseRadix (radix : Nat) (ds : List Char) : JSNum :=
  match ds with
  | [] => .nan
  | _ :: _ =>
    match radixValue radix ds 0 with
    | some v => roundToDouble false v 1
    | none => .nan

/-- `StringToNumber`: white space around the numeral is skipped, the empty text
is `0`, a numeral is a binary, octal or hexadecimal integer literal or a signed
decimal literal, and every other text is `NaN`. -/
def stringToNumber (s : String) : JSNum :=
  match trimChars s.data with
  | [] => .fin 0
  | '0' :: 'x' :: ds => parseRadix 16 ds
  | '0' :: 'X' :: ds => parseRadix 16 ds
  | '0' :: 'o' :: ds => parseRadix 8 ds
  | '0' :: 'O' :: ds => parseRadix 8 ds
  | '0' :: 'b' :: ds => parseRadix 2 ds
  | '0' :: 'B' :: ds => parseRadix 2 ds
  | '+' :: cs => parseUnsignedDecimal false cs
  | '-' :: cs => parseUnsignedDecimal true cs
  | cs => parseUnsignedDecimal false cs

/-- Drops the zeros at the end of a decimal digit list. -/
def dropTrailingZeros (ds : List Char) : List Char :=
  (ds.reverse.dropWhile fun c => c == '0').reverse

/-- Least `j` from `start` on with `den ≤ num * 10^j`; `fuel` bounds the steps. -/
def scaleUp : Nat → Nat → Nat → Nat → Nat
  | 0, _, _, j => j
  | fuel + 1, num, den, j => if den ≤ num then j else scaleUp fuel (num * 10) den (j + 1)

/-- The decimal position `n` of the positive value `num / den`:
`10^(n-1) ≤ num / den < 10^n`. -/
def decimalPosition (num den : Nat) : Int :=
  if den ≤ num then ((decLen (num / den) (num / den) : Nat) : Int)
  else 1 - ((scaleUp 400 (num * 10) den 1 : Nat) : Int)

/-- Searches the least digit count `k` (from `k` on, `fuel` more tries) for which
a `k`-digit decimal `s * 10^(n-k)` rounds to `target`; of the two decimals next
to the value the nearer is taken, the even one on a tie.  Returns `s` and `k`. -/
def shortestDigits (target : JSNum) (num den : Nat) (n : Int) : Nat → Nat → Nat × Nat
  | 0, k =>
    let up := if 0 ≤ (k : Int) - n then num * tenPow ((k : Int) - n).toNat else num
    let dn := if 0 ≤ (k : Int) - n then den else den * tenPow (n - (k : Int)).toNat
    (up / dn, k)
  | fuel + 1, k =>
    let up := if 0 ≤ (k : Int) - n then num * tenPow ((k : Int) - n).toNat else num
    let dn := if 0 ≤ (k : Int) - n then den else den * tenPow (n - (k : Int)).toNat
    let lo := up / dn
    let r := up % dn
    let hi := lo + 1
    let unitUp := if 0 ≤ n - (k : Int) then tenPow (n - (k : Int)).toNat else 1
    let unitDn := if 0 ≤ n - (k : Int) then 1 else tenPow ((k : Int) - n).toNat
    let loOk := decide (roundToDouble false (lo * unitUp) unitDn = target)
    let hiOk := decide (roundToDouble false (hi * unitUp) unitDn = target)
    if loOk && hiOk then
      (if 2 * r < dn then (lo, k) else if dn < 2 * r then (hi, k)
       else if lo % 2 = 0 then (lo, k) else (hi, k))
    else if loOk then (lo, k)
    else if hiOk then (hi, k)
    else shortestDigits target num den n fuel (k + 1)

/-- A list of `n` zeros. -/
def zeros (n : Nat) : List Char := List.replicate n '0'

/-- `Number::toString` for the positive value `num / den`, radix 10. -/
def positiveToString (num den : Nat) : String :=
  let n0 := decimalPosition num den
  let found := shortestDigits (roundToDouble false num den) num den n0 17 1
  let all := (Nat.toDigits 10 found.1)
  let digits := dropTrailingZeros all
  let k := digits.length
  let n : Int := n0 - (found.2 : Int) + (all.length : Int)
  if (k : Int) ≤ n ∧ n ≤ 21 then ⟨digits ++ zeros (n - (k : Int)).toNat⟩
  else if 0 < n ∧ n ≤ 21 then ⟨digits.take n.toNat ++ '.' :: digits.drop n.toNat⟩
  else if -6 < n ∧ n ≤ 0 then ⟨'0' :: '.' :: (zeros (-n).toNat ++ digits)⟩
  else
    let e := n - 1
    let expo : List Char :=
      'e' :: (if e < 0 then '-' else '+') :: Nat.toDigits 10 e.natAbs
    if k = 1 then ⟨digits ++ expo⟩
    else ⟨digits.take 1 ++ '.' :: (digits.drop 1 ++ expo)⟩

/-- `Number::toString(x)`, radix 10. -/
def numberToString : JSNum → String
  | .nan => "NaN"
  | .negZero => "0"
  | .inf false => "Infinity"
  | .inf true => "-Infinity"
  | .fin z =>
    if z = 0 then "0"
    else if z < 0 then "-" ++ positiveToString z.natAbs 1
    else positiveToString z.natAbs 1
  | .dyadic m k =>
    if m = 0 then "0"
    else if m < 0 then "-" ++ positiveToString m.natAbs (twoPow k)
    else positiveToString m.natAbs (twoPow k)

/-! ### Conversions and operators -/

/-- `ToNumber(v)`, the unary `+v` of the source. -/
def toNumber : JSVal → JSNum
  | .undefined => .nan
  | .null => .fin 0
  | .bool true => .fin 1
  | .bool false => .fin 0
  | .num x => x
  | .str s => stringToNumber s

/-- `ToString(v)`, the conversion a template literal applies. -/
def jsToString : JSVal → String
  | .undefined => "undefined"
  | .null => "null"
  | .bool true => "true"
  | .bool false => "false"
  | .num x => numberToString x
  | .str s => s

/-- `ToBoolean(v)`. -/
def truthy : JSVal → Bool
  | .undefined => false
  | .null => false
  | .bool b => b
  | .num .nan => false
  | .num .negZero => false
  | .num (.fin z) => z != 0
  | .num (.dyadic m _) => m != 0
  | .num (.inf _) => true
  | .str s => s != ""

/-- The global `isNaN(v)`. -/
def jsIsNaN (v : JSVal) : Bool :=
  match toNumber v with
  | .nan => true
  | _ => false

/-- The value of a number that is not `NaN`: an infinity or `m / 2^k`. -/
inductive ExtValue where
  | negInf
  | finite (m : Int) (k : Nat)
  | posInf
  deriving DecidableEq, Repr

/-- The value of a number, `none` for `NaN`. -/
def JSNum.value : JSNum → Option ExtValue
  | .nan => none
  | .fin z => some (.finite z 0)
  | .negZero => some (.finite 0 0)
  | .dyadic m k => some (.finite m k)
  | .inf true => some .negInf
  | .inf false => some .posInf

/-- The order of the values: `v < w`. -/
def ExtValue.lt : ExtValue → ExtValue → Bool
  | .negInf, .negInf => false
  | .negInf, _ => true
  | .finite _ _, .negInf => false
  | .finite m j, .finite n k => decide (m * (twoPow k : Int) < n * (twoPow j : Int))
  | .finite _ _, .posInf => true
  | .posInf, _ => false

/-- UTF-16 code units of a character. -/
def utf16Units (c : Char) : List Nat :=
  let n := c.toNat
  if n < 0x10000 then [n]
  else [0xD800 + (n - 0x10000) / 0x400, 0xDC00 + (n - 0x10000) % 0x400]

/-- Strict lexicographic order on lists of code units. -/
def unitsLt : List Nat → List Nat → Bool
  | _, [] => false
  | [], _ :: _ => true
  | a :: as, b :: bs => a < b || (a == b && unitsLt as bs)

/-- The JavaScript relational operator `a > b`: two strings are compared by
code units, otherwise both operands are converted to numbers and a `NaN`
operand makes the comparison false. -/
def jsGt (a b : JSVal) : Bool :=
  match a, b with
  | .str s, .str t => unitsLt (t.data.flatMap utf16Units) (s.data.flatMap utf16Units)
  | _, _ =>
    match (toNumber b).value, (toNumber a).value with
    | some v, some w => v.lt w
    | _, _ => false

/-! ## Unicode lower case (Unicode 14.0)

`String.prototype.toLowerCase` is the default case conversion of the Unicode
standard: every code point is replaced by its lower-case mapping, `U+0130` by
`U+0069 U+0307`, and `U+03A3` by the final sigma `U+03C2` when it ends a word
(a cased letter before it, none after it, case-ignorable code points skipped)
and by `U+03C3` otherwise. -/

/-- The simple lower-case mappings as `(first, last, step, delta)`: every code
point `first, first + step, ..., last` maps to itself plus `delta`. -/
def lowerRanges : List (Nat × Nat × Nat × Int) := [
  (65, 90, 1, 32), (192, 214, 1, 32), (216, 222, 1, 32), (256, 302, 2, 1), (306, 310, 2, 1),
  (313, 327, 2, 1), (330, 374, 2, 1), (376, 376, 1, -121), (377, 381, 2, 1), (385, 385, 1, 210),
  (386, 388, 2, 1), (390, 390, 1, 206), (391, 391, 1, 1), (393, 394, 1, 205), (395, 395, 1, 1),
  (398, 398, 1, 79), (399, 399, 1, 202), (400, 400, 1, 203), (401, 401, 1, 1), (403, 403, 1, 205),
  (404, 404, 1, 207), (406, 406, 1, 211), (407, 407, 1, 209), (408, 408, 1, 1),
  (412, 412, 1, 211), (413, 413, 1, 213), (415, 415, 1, 214), (416, 420, 2, 1),
  (422, 422, 1, 218), (423, 423, 1, 1), (425, 425, 1, 218), (428, 428, 1, 1), (430, 430, 1, 218),
  (431, 431, 1, 1), (433, 434, 1, 217), (435, 437, 2, 1), (439, 439, 1, 219), (440, 440, 1, 1),
  (444, 444, 1, 1), (452, 452, 1, 2), (453, 453, 1, 1), (455, 455, 1, 2), (456, 456, 1, 1),
  (458, 458, 1, 2), (459, 475, 2, 1), (478, 494, 2, 1), (497, 497, 1, 2), (498, 500, 2, 1),
  (502, 502, 1, -97), (503, 503, 1, -56), (504, 542, 2, 1), (544, 544, 1, -130), (546, 562, 2, 1),
  (570, 570, 1, 10795), (571, 571, 1, 1), (573, 573, 1, -163), (574, 574, 1, 10792),
  (577, 577, 1, 1), (579, 579, 1, -195), (580, 580, 1, 69), (581, 581, 1, 71), (582, 590, 2, 1),
  (880, 882, 2, 1), (886, 886, 1, 1), (895, 895, 1, 116), (902, 902, 1, 38), (904, 906, 1, 37),
  (908, 908, 1, 64), (910, 911, 1, 63), (913, 929, 1, 32), (931, 939, 1, 32), (975, 975, 1, 8),
  (984, 1006, 2, 1), (1012, 1012, 1, -60), (1015, 1015, 1, 1), (1017, 1017, 1, -7),
  (1018, 1018, 1, 1), (1021, 1023, 1, -130), (1024, 1039, 1, 80), (1040, 1071, 1, 32),
  (1120, 1152, 2, 1), (1162, 1214, 2, 1), (1216, 1216, 1, 15), (1217, 1229, 2, 1),
  (1232, 1326, 2, 1), (1329, 1366, 1, 48), (4256, 4293, 1, 7264), (4295, 4295, 1, 7264),
  (4301, 4301, 1, 7264), (5024, 5103, 1, 38864), (5104, 5109, 1, 8), (7312, 7354, 1, -3008),
  (7357, 7359, 1, -3008), (7680, 7828, 2, 1), (7838, 7838, 1, -7615), (7840, 7934, 2, 1),
  (7944, 7951, 1, -8), (7960, 7965, 1, -8), (7976, 7983, 1, -8), (7992, 7999, 1, -8),
  (8008, 8013, 1, -8), (8025, 8031, 2, -8), (8040, 8047, 1, -8), (8072, 8079, 1, -8),
  (8088, 8095, 1, -8), (8104, 8111, 1, -8), (8120, 8121, 1, -8), (8122, 8123, 1, -74),
  (8124, 8124, 1, -9), (8136, 8139, 1, -86), (8140, 8140, 1, -9), (8152, 8153, 1, -8),
  (8154, 8155, 1, -100), (8168, 8169, 1, -8), (8170, 8171, 1, -112), (8172, 8172, 1, -7),
  (8184, 8185, 1, -128), (8186, 8187, 1, -126), (8188, 8188, 1, -9), (8486, 8486, 1, -7517),
  (8490, 8490, 1, -8383), (8491, 8491, 1, -8262), (8498, 8498, 1, 28), (8544, 8559, 1, 16),
  (8579, 8579, 1, 1), (9398, 9423, 1, 26), (11264, 11311, 1, 48), (11360, 11360, 1, 1),
  (11362, 11362, 1, -10743), (11363, 11363, 1, -3814), (11364, 11364, 1, -10727),
  (11367, 11371, 2, 1), (11373, 11373, 1, -10780), (11374, 11374, 1, -10749),
  (11375, 11375, 1, -10783), (11376, 11376, 1, -10782), (11378, 11378, 1, 1),
  (11381, 11381, 1, 1), (11390, 11391, 1, -10815), (11392, 11490, 2, 1), (11499, 11501, 2, 1),
  (11506, 11506, 1, 1), (42560, 42604, 2, 1), (42624, 42650, 2, 1), (42786, 42798, 2, 1),
  (42802, 42862, 2, 1), (42873, 42875, 2, 1), (42877, 42877, 1, -35332), (42878, 42886, 2, 1),
  (42891, 42891, 1, 1), (42893, 42893, 1, -42280), (42896, 42898, 2, 1), (42902, 42920, 2, 1),
  (42922, 42922, 1, -42308), (42923, 42923, 1, -42319), (42924, 42924, 1, -42315),
  (42925, 42925, 1, -42305), (42926, 42926, 1, -42308), (42928, 42928, 1, -42258),
  (42929, 42929, 1, -42282), (42930, 42930, 1, -42261), (42931, 42931, 1, 928),
  (42932, 42946, 2, 1), (42948, 42948, 1, -48), (42949, 42949, 1, -42307),
  (42950, 42950, 1, -35384), (42951, 42953, 2, 1), (42960, 42960, 1, 1), (42966, 42968, 2, 1),
  (42997, 42997, 1, 1), (65313, 65338, 1, 32), (66560, 66599, 1, 40), (66736, 66771, 1, 40),
  (66928, 66938, 1, 39), (66940, 66954, 1, 39), (66956, 66962, 1, 39), (66964, 66965, 1, 39),
  (68736, 68786, 1, 64), (71840, 71871, 1, 32), (93760, 93791, 1, 32), (125184, 125217, 1, 34)]

/-- The case-ignorable code points, as inclusive ranges. -/
def caseIgnorableRanges : List (Nat × Nat) := [
  (39, 39), (46, 46), (58, 58), (94, 94), (96, 96), (168, 168), (173, 173), (175, 175),
  (180, 180), (183, 184), (688, 879), (884, 885), (890, 890), (900, 901), (903, 903),
  (1155, 1161), (1369, 1369), (1375, 1375), (1425, 1469), (1471, 1471), (1473, 1474),
  (1476, 1477), (1479, 1479), (1524, 1524), (1536, 1541), (1552, 1562), (1564, 1564),
  (1600, 1600), (1611, 1631), (1648, 1648), (1750, 1757), (1759, 1768), (1770, 1773),
  (1807, 1807), (1809, 1809), (1840, 1866), (1958, 1968), (2027, 2037), (2042, 2042),
  (2045, 2045), (2070, 2093), (2137, 2139), (2184, 2184), (2192, 2193), (2200, 2207),
  (2249, 2306), (2362, 2362), (2364, 2364), (2369, 2376), (2381, 2381), (2385, 2391),
  (2402, 2403), (2417, 2417), (2433, 2433), (2492, 2492), (2497, 2500), (2509, 2509),
  (2530, 2531), (2558, 2558), (2561, 2562), (2620, 2620), (2625, 2626), (2631, 2632),
  (2635, 2637), (2641, 2641), (2672, 2673), (2677, 2677), (2689, 2690), (2748, 2748),
  (2753, 2757), (2759, 2760), (2765, 2765), (2786, 2787), (2810, 2815), (2817, 2817),
  (2876, 2876), (2879, 2879), (2881, 2884), (2893, 2893), (2901, 2902), (2914, 2915),
  (2946, 2946), (3008, 3008), (3021, 3021), (3072, 3072), (3076, 3076), (3132, 3132),
  (3134, 3136), (3142, 3144), (3146, 3149), (3157, 3158), (3170, 3171), (3201, 3201),
  (3260, 3260), (3263, 3263), (3270, 3270), (3276, 3277), (3298, 3299), (3328, 3329),
  (3387, 3388), (3393, 3396), (3405, 3405), (3426, 3427), (3457, 3457), (3530, 3530),
  (3538, 3540), (3542, 3542), (3633, 3633), (3636, 3642), (3654, 3662), (3761, 3761),
  (3764, 3772), (3782, 3782), (3784, 3789), (3864, 3865), (3893, 3893), (3895, 3895),
  (3897, 3897), (3953, 3966), (3968, 3972), (3974, 3975), (3981, 3991), (3993, 4028),
  (4038, 4038), (4141, 4144), (4146, 4151), (4153, 4154), (4157, 4158), (4184, 4185),
  (4190, 4192), (4209, 4212), (4226, 4226), (4229, 4230), (4237, 4237), (4253, 4253),
  (4348, 4348), (4957, 4959), (5906, 5908), (5938, 5939), (5970, 5971), (6002, 6003),
  (6068, 6069), (6071, 6077), (6086, 6086), (6089, 6099), (6103, 6103), (6109, 6109),
  (6155, 6159), (6211, 6211), (6277, 6278), (6313, 6313), (6432, 6434), (6439, 6440),
  (6450, 6450), (6457, 6459), (6679, 6680), (6683, 6683), (6742, 6742), (6744, 6750),
  (6752, 6752), (6754, 6754), (6757, 6764), (6771, 6780), (6783, 6783), (6823, 6823),
  (6832, 6862), (6912, 6915), (6964, 6964), (6966, 6970), (6972, 6972), (6978, 6978),
  (7019, 7027), (7040, 7041), (7074, 7077), (7080, 7081), (7083, 7085), (7142, 7142),
  (7144, 7145), (7149, 7149), (7151, 7153), (7212, 7219), (7222, 7223), (7288, 7293),
  (7376, 7378), (7380, 7392), (7394, 7400), (7405, 7405), (7412, 7412), (7416, 7417),
  (7468, 7530), (7544, 7544), (7579, 7679), (8125, 8125), (8127, 8129), (8141, 8143),
  (8157, 8159), (8173, 8175), (8189, 8190), (8203, 8207), (8216, 8217), (8228, 8228),
  (8231, 8231), (8234, 8238), (8288, 8292), (8294, 8303), (8305, 8305), (8319, 8319),
  (8336, 8348), (8400, 8432), (11388, 11389), (11503, 11505), (11631, 11631), (11647, 11647),
  (11744, 11775), (11823, 11823), (12293, 12293), (12330, 12333), (12337, 12341), (12347, 12347),
  (12441, 12446), (12540, 12542), (40981, 40981), (42232, 42237), (42508, 42508), (42607, 42610),
  (42612, 42621), (42623, 42623), (42652, 42655), (42736, 42737), (42752, 42785), (42864, 42864),
  (42888, 42890), (42994, 42996), (43000, 43001), (43010, 43010), (43014, 43014), (43019, 43019),
  (43045, 43046), (43052, 43052), (43204, 43205), (43232, 43249), (43263, 43263), (43302, 43309),
  (43335, 43345), (43392, 43394), (43443, 43443), (43446, 43449), (43452, 43453), (43471, 43471),
  (43493, 43494), (43561, 43566), (43569, 43570), (43573, 43574), (43587, 43587), (43596, 43596),
  (43632, 43632), (43644, 43644), (43696, 43696), (43698, 43700), (43703, 43704), (43710, 43711),
  (43713, 43713), (43741, 43741), (43756, 43757), (43763, 43764), (43766, 43766), (43867, 43871),
  (43881, 43883), (44005, 44005), (44008, 44008), (44013, 44013), (64286, 64286), (64434, 64450),
  (65024, 65039), (65043, 65043), (65056, 65071), (65106, 65106), (65109, 65109), (65279, 65279),
  (65287, 65287), (65294, 65294), (65306, 65306), (65342, 65342), (65344, 65344), (65392, 65392),
  (65438, 65439), (65507, 65507), (65529, 65531), (66045, 66045), (66272, 66272), (66422, 66426),
  (67456, 67461), (67463, 67504), (67506, 67514), (68097, 68099), (68101, 68102), (68108, 68111),
  (68152, 68154), (68159, 68159), (68325, 68326), (68900, 68903), (69291, 69292), (69446, 69456),
  (69506, 69509), (69633, 69633), (69688, 69702), (69744, 69744), (69747, 69748), (69759, 69761),
  (69811, 69814), (69817, 69818), (69821, 69821), (69826, 69826), (69837, 69837), (69888, 69890),
  (69927, 69931), (69933, 69940), (70003, 70003), (70016, 70017), (70070, 70078), (70089, 70092),
  (70095, 70095), (70191, 70193), (70196, 70196), (70198, 70199), (70206, 70206), (70367, 70367),
  (70371, 70378), (70400, 70401), (70459, 70460), (70464, 70464), (70502, 70508), (70512, 70516),
  (70712, 70719), (70722, 70724), (70726, 70726), (70750, 70750), (70835, 70840), (70842, 70842),
  (70847, 70848), (70850, 70851), (71090, 71093), (71100, 71101), (71103, 71104), (71132, 71133),
  (71219, 71226), (71229, 71229), (71231, 71232), (71339, 71339), (71341, 71341), (71344, 71349),
  (71351, 71351), (71453, 71455), (71458, 71461), (71463, 71467), (71727, 71735), (71737, 71738),
  (71995, 71996), (71998, 71998), (72003, 72003), (72148, 72151), (72154, 72155), (72160, 72160),
  (72193, 72202), (72243, 72248), (72251, 72254), (72263, 72263), (72273, 72278), (72281, 72283),
  (72330, 72342), (72344, 72345), (72752, 72758), (72760, 72765), (72767, 72767), (72850, 72871),
  (72874, 72880), (72882, 72883), (72885, 72886), (73009, 73014), (73018, 73018), (73020, 73021),
  (73023, 73029), (73031, 73031), (73104, 73105), (73109, 73109), (73111, 73111), (73459, 73460),
  (78896, 78904), (92912, 92916), (92976, 92982), (92992, 92995), (94031, 94031), (94095, 94111),
  (94176, 94177), (94179, 94180), (110576, 110579), (110581, 110587), (110589, 110590),
  (113821, 113822), (113824, 113827), (118528, 118573), (118576, 118598), (119143, 119145),
  (119155, 119170), (119173, 119179), (119210, 119213), (119362, 119364), (121344, 121398),
  (121403, 121452), (121461, 121461), (121476, 121476), (121499, 121503), (121505, 121519),
  (122880, 122886), (122888, 122904), (122907, 122913), (122915, 122916), (122918, 122922),
  (123184, 123197), (123566, 123566), (123628, 123631), (125136, 125142), (125252, 125259),
  (127995, 127999), (917505, 917505), (917536, 917631), (917760, 917999)]

/-- The cased code points that are not case-ignorable, as inclusive ranges. -/
def casedRanges : List (Nat × Nat) := [
  (65, 90), (97, 122), (170, 170), (181, 181), (186, 186), (192, 214), (216, 246), (248, 442),
  (444, 447), (452, 659), (661, 687), (880, 883), (886, 887), (891, 893), (895, 895), (902, 902),
  (904, 906), (908, 908), (910, 929), (931, 1013), (1015, 1153), (1162, 1327), (1329, 1366),
  (1376, 1416), (4256, 4293), (4295, 4295), (4301, 4301), (4304, 4346), (4349, 4351),
  (5024, 5109), (5112, 5117), (7296, 7304), (7312, 7354), (7357, 7359), (7424, 7467),
  (7531, 7543), (7545, 7578), (7680, 7957), (7960, 7965), (7968, 8005), (8008, 8013),
  (8016, 8023), (8025, 8025), (8027, 8027), (8029, 8029), (8031, 8061), (8064, 8116),
  (8118, 8124), (8126, 8126), (8130, 8132), (8134, 8140), (8144, 8147), (8150, 8155),
  (8160, 8172), (8178, 8180), (8182, 8188), (8450, 8450), (8455, 8455), (8458, 8467),
  (8469, 8469), (8473, 8477), (8484, 8484), (8486, 8486), (8488, 8488), (8490, 8493),
  (8495, 8500), (8505, 8505), (8508, 8511), (8517, 8521), (8526, 8526), (8544, 8575),
  (8579, 8580), (9398, 9449), (11264, 11387), (11390, 11492), (11499, 11502), (11506, 11507),
  (11520, 11557), (11559, 11559), (11565, 11565), (42560, 42605), (42624, 42651), (42786, 42863),
  (42865, 42887), (42891, 42894), (42896, 42954), (42960, 42961), (42963, 42963), (42965, 42969),
  (42997, 42998), (43002, 43002), (43824, 43866), (43872, 43880), (43888, 43967), (64256, 64262),
  (64275, 64279), (65313, 65338), (65345, 65370), (66560, 66639), (66736, 66771), (66776, 66811),
  (66928, 66938), (66940, 66954), (66956, 66962), (66964, 66965), (66967, 66977), (66979, 66993),
  (66995, 67001), (67003, 67004), (68736, 68786), (68800, 68850), (71840, 71903), (93760, 93823),
  (119808, 119892), (119894, 119964), (119966, 119967), (119970, 119970), (119973, 119974),
  (119977, 119980), (119982, 119993), (119995, 119995), (119997, 120003), (120005, 120069),
  (120071, 120074), (120077, 120084), (120086, 120092), (120094, 120121), (120123, 120126),
  (120128, 120132), (120134, 120134), (120138, 120144), (120146, 120485), (120488, 120512),
  (120514, 120538), (120540, 120570), (120572, 120596), (120598, 120628), (120630, 120654),
  (120656, 120686), (120688, 120712), (120714, 120744), (120746, 120770), (120772, 120779),
  (122624, 122633), (122635, 122654), (125184, 125251), (127280, 127305), (127312, 127337),
  (127344, 127369)]

/-- Membership in a list of inclusive ranges. -/
def inRanges (n : Nat) : List (Nat × Nat) → Bool
  | [] => false
  | (lo, hi) :: rest => (lo ≤ n && n ≤ hi) || inRanges n rest

/-- The offset of the simple lower-case mapping of the code point `n`. -/
def lowerDelta (n : Nat) : List (Nat × Nat × Nat × Int) → Int
  | [] => 0
  | (lo, hi, step, delta) :: rest =>
    if lo ≤ n ∧ n ≤ hi ∧ (n - lo) % step = 0 then delta else lowerDelta n rest

/-- The simple lower-case mapping of a character. -/
def simpleLower (c : Char) : Char :=
  Char.ofNat ((c.toNat : Int) + lowerDelta c.toNat lowerRanges).toNat

/-- Whether the text, read away from a sigma, reaches a cased letter after
skipping case-ignorable characters. -/
def reachesCased : List Char → Bool
  | [] => false
  | c :: cs =>
    if inRanges c.toNat caseIgnorableRanges then reachesCased cs
    else inRanges c.toNat casedRanges

/-- Lower-cases the characters `cs`; `before` holds the characters already
passed, nearest first. -/
def lowerChars : List Char → List Char → List Char
  | _, [] => []
  | before, c :: cs =>
    (if c.toNat = 0x130 then [Char.ofNat 0x69, Char.ofNat 0x307]
     else if c.toNat = 0x3A3 then
       (if reachesCased before && !reachesCased cs then [Char.ofNat 0x3C2]
        else [Char.ofNat 0x3C3])
     else [simpleLower c]) ++ lowerChars (c :: before) cs

/-- `s.toLowerCase()`. -/
def jsToLowerCase (s : String) : String := ⟨lowerChars [] s.data⟩

/-! ## Errors, statements, outcomes -/

/-- The error classes of `expressError` that the models throw. -/
inductive ExpressError where
  | BadRequestError (message : String)
  | NotFoundError (message : String)
  deriving DecidableEq, Repr

deriving instance DecidableEq for Except

/-- A parameterized statement handed to `db.query`. -/
structure Query where
  text : String
  values : List JSVal
  deriving DecidableEq, Repr

/-- A result row: column name to value. -/
abbrev Row := List (String × JSVal)

/-- The store as seen by a model function: its answer (`rows`) to a statement. -/
abbrev Db := Query → List Row

/-- What a model function did: its result and the statements it issued. -/
structure Outcome (α : Type) where
  result : Except ExpressError α
  issued : List Query

/-! ## The partial-update clause builder -/

/-- Modelled from the spec: `sqlForPartialUpdate` of `src/helpers/sql.js`,
which is not among the sources (only its test is).  Section 4.1: an empty
field mapping is rejected; every key is resolved through the name map and
kept unchanged when the map has no entry for it; the fragments
`"column"=$N` are numbered from 1 in iteration order and joined by a comma
and a space; the values are returned in the same order.  The accumulator is
the number of fragments already produced. -/
def setFragments (jsToSql : List (String × String)) :
    List (String × JSVal) → Nat → List String
  | [], _ => []
  | (colName, _) :: rest, idx =>
    ("\"" ++ ((jsToSql.lookup colName).getD colName) ++ "\"=$" ++ toString (idx + 1))
      :: setFragments jsToSql rest (idx + 1)

/-- Modelled from the spec: `sqlForPartialUpdate(dataToUpdate, jsToSql)` of
the missing `src/helpers/sql.js`; returns `(setCols, values)` or throws the
error the spec calls `NoFieldsProvided` (a `BadRequestError` in
`src/helpers/sql.test.js`). -/
def sqlForPartialUpdate (dataToUpdate : List (String × JSVal))
    (jsToSql : List (String × String)) : Except ExpressError (String × List JSVal) :=
  match dataToUpdate with
  | [] => .error (.BadRequestError "No data")
  | _ :: _ =>
    .ok (", ".intercalate (setFragments jsToSql dataToUpdate 0),
         dataToUpdate.map Prod.snd)

/-! ## `Company` (src/models/company.js) -/

/-- `Company.update(handle, data)`, lines 112-133. -/
def Company.update (db : Db) (handle : JSVal) (data : List (String × JSVal)) :
    Outcome Row :=
  match sqlForPartialUpdate data
      [("numEmployees", "num_employees"), ("logoUrl", "logo_url")] with
  | .error e => ⟨.error e, []⟩
  | .ok (setCols, values) =>
    let handleVarIdx := "$" ++ toString (values.length + 1)
    let querySql := "UPDATE companies \n                      SET " ++ setCols ++
      " \n                      WHERE handle = " ++ handleVarIdx ++
      " \n                      RETURNING handle, \n                                name, \n                                description, \n                                num_employees AS \"numEmployees\", \n                                logo_url AS \"logoUrl\""
    let q : Query := ⟨querySql, values ++ [handle]⟩
    match (db q).head? with
    | none => ⟨.error (.NotFoundError ("No company: " ++ jsToString handle)), [q]⟩
    | some company => ⟨.ok company, [q]⟩

/-- `Company.findAll()`, lines 47-58. -/
def Company.findAll (db : Db) : Outcome (List Row) :=
  let q : Query := ⟨"SELECT handle,\n                  name,\n                  description,\n                  num_employees AS \"numEmployees\",\n                  logo_url AS \"logoUrl\"\n           FROM companies\n           ORDER BY name", []⟩
  ⟨.ok (db q), [q]⟩

/-- The two mutable variables `query` and `values` of the filter builders. -/
structure Building where
  query : String
  values : List JSVal
  deriving DecidableEq, Repr

/-- Lines 210-213 of `Company.filterBy`: the `min` block. -/
def Company.filterBy.handleMin (min : JSVal) (st : Building) : Building :=
  if min ≠ .undefined then
    let values := st.values ++ [JSVal.num (toNumber min)]
    ⟨st.query ++ " AND num_employees >= $" ++ toString values.length ++ " ", values⟩
  else st

/-- Lines 215-218 of `Company.filterBy`: the `max` block. -/
def Company.filterBy.handleMax (max : JSVal) (st : Building) : Building :=
  if max ≠ .undefined then
    let values := st.values ++ [JSVal.num (toNumber max)]
    ⟨st.query ++ " AND num_employees <= $" ++ toString values.length, values⟩
  else st

/-- Lines 220-223 of `Company.filterBy`: the `name` block. -/
def Company.filterBy.handleName (name : JSVal) (st : Building) : Building :=
  if name ≠ .undefined then
    let values := st.values ++ [JSVal.str (jsToString name ++ "%")]
    ⟨st.query ++ " AND name ILIKE $" ++ toString values.length, values⟩
  else st

/-- Lines 225-229 of `Company.filterBy`: the `ORDER BY` block. -/
def Company.filterBy.addOrderBy (name : JSVal) (st : Building) : Building :=
  if name ≠ .undefined then ⟨st.query ++ "ORDER BY name", st.values⟩
  else ⟨st.query ++ "ORDER BY num_employees", st.values⟩

/-- `Company.filterBy(min, max, name)`, lines 192-239.  `query` and `values`
start as in lines 193-203; the range check comes first, then the four blocks
update them in source order, then the statement is sent. -/
def Company.filterBy (db : Db) (min max name : JSVal) : Outcome (List Row) :=
  let st : Building := ⟨"\n    SELECT \n      handle,\n      name,\n      description,\n      num_employees AS \"numEmployees\",\n      logo_url AS \"logoUrl\"\n    FROM companies\n    WHERE 1=1", []⟩
  if min ≠ .undefined ∧ max ≠ .undefined ∧ jsGt min max = true then
    ⟨.error (.BadRequestError "Minimum cannot be greater than maximum"), []⟩
  else
    let st := Company.filterBy.handleMin min st
    let st := Company.filterBy.handleMax max st
    let st := Company.filterBy.handleName name st
    let st := Company.filterBy.addOrderBy name st
    let q : Query := ⟨st.query, st.values⟩
    let company := db q
    if company.length = 0 then
      ⟨.error (.NotFoundError "No company in that Filtered Range"), [q]⟩
    else ⟨.ok company, [q]⟩

/-! ## `GET /companies` (src/routes/companies.js) -/

/-- The handler of `router.get("/")`, lines 52-72, on the three query
parameters it reads (`undefined` when absent).  A thrown error is what the
handler passes to `next`; a value is the `companies` list it sends. -/
def getCompanies (db : Db) (min max name : JSVal) : Outcome (List Row) :=
  if (truthy min && jsIsNaN min) || (truthy max && jsIsNaN max) then
    ⟨.error (.BadRequestError "Input must be a Number"), []⟩
  else if truthy min || truthy max || truthy name then
    Company.filterBy db min max name
  else Company.findAll db

/-! ## `Job` (src/models/job.js) -/

/-- Lines 147-150 of `Job.filterby`: the `title` block. -/
def Job.filterby.handleTitle (title : JSVal) (st : Building) : Building :=
  if title ≠ .undefined then
    let values := st.values ++ [JSVal.str ("%" ++ jsToString title ++ "%")]
    ⟨st.query ++ " AND title ILIKE $" ++ toString values.length, values⟩
  else st

/-- Lines 153-156 of `Job.filterby`: the `minSalary` block. -/
def Job.filterby.handleMinSalary (minSalary : JSVal) (st : Building) : Building :=
  if minSalary ≠ .undefined then
    let values := st.values ++ [JSVal.num (toNumber minSalary)]
    ⟨st.query ++ " AND salary >= $" ++ toString values.length, values⟩
  else st

/-- Lines 159-161 of `Job.filterby`: the `hasEquity` block (`=== true`). -/
def Job.filterby.handleHasEquity (hasEquity : JSVal) (st : Building) : Building :=
  if hasEquity = .bool true then ⟨st.query ++ " AND equity::float > 0", st.values⟩
  else st

/-- `Job.filterby(title, minSalary, hasEquity)`, lines 133-177: the three
blocks run first, the all-undefined check follows them and precedes the
statement. -/
def Job.filterby (db : Db) (title minSalary hasEquity : JSVal) : Outcome (List Row) :=
  let st : Building := ⟨"\n    SELECT \n      id,\n      title, \n      salary, \n      equity, \n      company_handle\n    FROM jobs\n    WHERE 1=1", []⟩
  let st := Job.filterby.handleTitle title st
  let st := Job.filterby.handleMinSalary minSalary st
  let st := Job.filterby.handleHasEquity hasEquity st
  if title = .undefined ∧ minSalary = .undefined ∧ hasEquity = .undefined then
    ⟨.error (.NotFoundError "No filters provided"), []⟩
  else
    let q : Query := ⟨st.query, st.values⟩
    let job := db q
    if job.length = 0 then
      ⟨.error (.NotFoundError "No company in that Filtered Range"), [q]⟩
    else ⟨.ok job, [q]⟩

/-- A row of the `jobs` table. -/
structure JobRow where
  id : Nat
  title : String
  salary : JSVal
  equity : JSVal
  company_handle : String
  deriving DecidableEq, Repr

/-- The `jobs` table: its rows in insertion order and the next value of the
serial `id` column. -/
structure JobsTable where
  rows : List JobRow
  nextId : Nat
  deriving DecidableEq, Repr

/-- The store's answer to
`SELECT title, company_handle FROM jobs WHERE title = $1 AND company_handle = $2`. -/
def JobsTable.selectTitleHandle (tbl : JobsTable) (title company_handle : String) :
    List (String × String) :=
  (tbl.rows.filter fun r => r.title = title ∧ r.company_handle = company_handle).map
    fun r => (r.title, r.company_handle)

/-- The store's execution of
`INSERT INTO jobs (title, salary, equity, company_handle) VALUES ($1, $2, $3, $4) RETURNING ...`:
the returned row and the table after the insert. -/
def JobsTable.insertJob (tbl : JobsTable) (title : String) (salary equity : JSVal)
    (company_handle : String) : JobRow × JobsTable :=
  let row : JobRow := ⟨tbl.nextId, title, salary, equity, company_handle⟩
  (row, ⟨tbl.rows ++ [row], tbl.nextId + 1⟩)

/-- `Job.create({ title, salary, equity, company_handle })`, lines 18-45, over
the `jobs` table: the result and the table afterwards. -/
def Job.create (tbl : JobsTable) (title : String) (salary equity : JSVal)
    (company_handle : String) : Except ExpressError JobRow × JobsTable :=
  let title := jsToLowerCase (jsTrim title)
  let company_handle := jsToLowerCase (jsTrim company_handle)
  let duplicateCheck := tbl.selectTitleHandle title company_handle
  match duplicateCheck.head? with
  | some _ =>
    (.error (.BadRequestError ("Duplicate Job: " ++ title ++ " from " ++ company_handle)), tbl)
  | none =>
    let (job, tbl) := tbl.insertJob title salary equity company_handle
    (.ok job, tbl)

/-! ## Text utilities used in the statements -/

/-- Number of positions of `s` at which `pat` starts. -/
def countAt (pat : List Char) : List Char → Nat
  | [] => 0
  | c :: cs => (if pat.isPrefixOf (c :: cs) then 1 else 0) + countAt pat cs

/-- Number of occurrences of the non-empty text `pat` in `s`. -/
def occurrences (pat s : String) : Nat := countAt pat.data s.data

/-! ## The filter builders as section 4.2 words them -/

/-- One supplied filter as section 4.2 describes it: the condition written in
front of the placeholder, the value bound to the placeholder, and the text the
source leaves after the placeholder. -/
structure SuppliedFilter where
  condition : String
  value : JSVal
  trailer : String
  deriving DecidableEq, Repr

/-- The fragment of the supplied filter at position `i` (from 0): it owns the
placeholder `$(i+1)`. -/
def andFragment (i : Nat) (f : SuppliedFilter) : String :=
  " AND " ++ f.condition ++ " $" ++ toString (i + 1) ++ f.trailer

/-- The supplied company filters in the order min, max, name, with the value
each one binds. -/
def companySuppliedFilters (min max name : JSVal) : List SuppliedFilter :=
  (if min ≠ .undefined then [⟨"num_employees >=", .num (toNumber min), " "⟩] else []) ++
  (if max ≠ .undefined then [⟨"num_employees <=", .num (toNumber max), ""⟩] else []) ++
  (if name ≠ .undefined then [⟨"name ILIKE", .str (jsToString name ++ "%"), ""⟩] else [])

/-- The text section 4.2 prescribes for a filtered company search: the base
select, one fragment per supplied filter numbered in order, the sort clause. -/
def companyFilterText (min max name : JSVal) : String :=
  "\n    SELECT \n      handle,\n      name,\n      description,\n      num_employees AS \"numEmployees\",\n      logo_url AS \"logoUrl\"\n    FROM companies\n    WHERE 1=1" ++
  String.join ((companySuppliedFilters min max name).enum.map fun p => andFragment p.1 p.2) ++
  (if name ≠ .undefined then "ORDER BY name" else "ORDER BY num_employees")
/-- The statement `Company.filterBy` holds in `query` and `values` when it
reaches `db.query`: the four blocks applied in source order. -/
def Company.filterBy.built (min max name : JSVal) : Query :=
  let st := Company.filterBy.addOrderBy name (Company.filterBy.handleName name
    (Company.filterBy.handleMax max (Company.filterBy.handleMin min
      ⟨"\n    SELECT \n      handle,\n      name,\n      description,\n      num_employees AS \"numEmployees\",\n      logo_url AS \"logoUrl\"\n    FROM companies\n    WHERE 1=1", []⟩)))
  ⟨st.query, st.values⟩
/-- The supplied value-binding job filters in the order title, minSalary, with
the value each one binds (section 4.2: `hasEquity` binds none). -/
def jobSuppliedFilters (title minSalary : JSVal) : List SuppliedFilter :=
  (if title ≠ .undefined then
    [⟨"title ILIKE", .str ("%" ++ jsToString title ++ "%"), ""⟩] else []) ++
  (if minSalary ≠ .undefined then [⟨"salary >=", .num (toNumber minSalary), ""⟩] else [])

/-- The text of a filtered job search when `hasEquity` is left out of
consideration: the base select and one numbered fragment per supplied filter. -/
def jobFilterText (title minSalary : JSVal) : String :=
  "\n    SELECT \n      id,\n      title, \n      salary, \n      equity, \n      company_handle\n    FROM jobs\n    WHERE 1=1" ++
  String.join ((jobSuppliedFilters title minSalary).enum.map fun p => andFragment p.1 p.2)

/-- The statement `Job.filterby` holds in `query` and `values` when it reaches
`db.query`: the three blocks applied in source order. -/
def Job.filterby.built (title minSalary hasEquity : JSVal) : Query :=
  let st := Job.filterby.handleHasEquity hasEquity (Job.filterby.handleMinSalary minSalary
    (Job.filterby.handleTitle title
      ⟨"\n    SELECT \n      id,\n      title, \n      salary, \n      equity, \n      company_handle\n    FROM jobs\n    WHERE 1=1", []⟩))
  ⟨st.query, st.values⟩

/-- A sample store: one row for the statement whose only bound value is the
number 1, no row for any other statement. -/
def sampleStore : Db :=
  fun q => if q.values = [.num (.fin 1)] then [[("handle", .str "c1")]] else []

/-! ## `Job.update` (src/models/job.js) -/

/-- `Job.update(id, data)`, lines 89-113: the guard on `Object.keys(data)`
comes first, then the clause builder, then the statement. -/
def Job.update (db : Db) (id : JSVal) (data : List (String × JSVal)) : Outcome Row :=
  if data.length = 0 then
    ⟨.error (.BadRequestError "No data provided"), []⟩
  else
    match sqlForPartialUpdate data
        [("title", "title"), ("salary", "salary"), ("equity", "equity")] with
    | .error e => ⟨.error e, []⟩
    | .ok (setCols, values) =>
      let idVarIdx := "$" ++ toString (values.length + 1)
      let querySql := "\n    UPDATE jobs\n    SET " ++ setCols ++ "\n    WHERE id = " ++
        idVarIdx ++ "\n    RETURNING id, title, salary, equity, company_handle\n  "
      let q : Query := ⟨querySql, values ++ [id]⟩
      match (db q).head? with
      | none => ⟨.error (.NotFoundError ("No job with the id: " ++ jsToString id)), [q]⟩
      | some job => ⟨.ok job, [q]⟩

/-! ## `Company.get` (src/models/company.js) over concrete tables -/

/-- A row of the `companies` table, under the names the selects give its
columns. -/
structure CompanyRow where
  handle : String
  name : String
  description : String
  numEmployees : JSVal
  logoUrl : JSVal
  deriving DecidableEq, Repr

/-- A row of `SELECT id, title, salary, equity FROM jobs`. -/
structure JobSummary where
  id : Nat
  title : String
  salary : JSVal
  equity : JSVal
  deriving DecidableEq, Repr

/-- The object a company lookup returns: the selected row and, when the
property was assigned, its `jobs`. -/
structure CompanyResult where
  company : CompanyRow
  jobs : Option (List JobSummary)
  deriving DecidableEq, Repr

/-- The two tables. -/
structure Store where
  companies : List CompanyRow
  jobs : List JobRow
  deriving DecidableEq, Repr

/-- SQL `LOWER`, on the ASCII letters (other characters are kept). -/
def sqlLower (s : String) : String := ⟨s.data.map Char.toLower⟩

/-- The store's answer to `SELECT ... FROM companies WHERE handle = $1`. -/
def Store.selectCompanyByHandle (st : Store) (handle : String) : List CompanyRow :=
  st.companies.filter fun c => c.handle = handle

/-- The store's answer to `SELECT ... FROM companies WHERE LOWER(name) = $1`. -/
def Store.selectCompanyByLowerName (st : Store) (name : String) : List CompanyRow :=
  st.companies.filter fun c => sqlLower c.name = name

/-- Insertion of a row into a list ordered by `id`. -/
def insertById (j : JobSummary) : List JobSummary → List JobSummary
  | [] => [j]
  | k :: ks => if j.id ≤ k.id then j :: k :: ks else k :: insertById j ks

/-- `ORDER BY id`. -/
def orderById : List JobSummary → List JobSummary
  | [] => []
  | j :: js => insertById j (orderById js)

/-- The store's answer to
`SELECT id, title, salary, equity FROM jobs WHERE company_handle = $1 ORDER BY id`. -/
def Store.selectJobsOfCompany (st : Store) (handle : String) : List JobSummary :=
  orderById ((st.jobs.filter fun j => j.company_handle = handle).map
    fun j => ⟨j.id, j.title, j.salary, j.equity⟩)

/-- The first `static async get`, lines 68-98: lookup by handle, with the jobs
of the company. -/
def Company.get_at68 (st : Store) (handle : String) : Except ExpressError CompanyResult :=
  match (st.selectCompanyByHandle handle).head? with
  | none => .error (.NotFoundError ("No company: " ++ handle))
  | some company => .ok ⟨company, some (st.selectJobsOfCompany handle)⟩

/-- The second `static async get`, lines 153-170: lookup by `LOWER(name)`. -/
def Company.get_at153 (st : Store) (name : String) : Except ExpressError CompanyResult :=
  match (st.selectCompanyByLowerName name).head? with
  | none => .error (.NotFoundError ("No company: " ++ name))
  | some company => .ok ⟨company, none⟩

/-- The third `static async get`, lines 172-189: lookup by `LOWER(name)`. -/
def Company.get_at172 (st : Store) (name : String) : Except ExpressError CompanyResult :=
  match (st.selectCompanyByLowerName name).head? with
  | none => .error (.NotFoundError ("No company: " ++ name))
  | some company => .ok ⟨company, none⟩

/-- `Company.get` as callers see it: a class body that defines a static method
three times under one name leaves the last definition in the property, so
`Company.get` is the method of lines 172-189. -/
def Company.get (st : Store) (name : String) : Except ExpressError CompanyResult :=
  Company.get_at172 st name

/-- The handler of `router.get("/:handle")`, lines 82-89 of
`src/routes/companies.js`: it calls `Company.get` on the path parameter. -/
def getCompany (st : Store) (handle : String) : Except ExpressError CompanyResult :=
  Company.get st handle

/-! ## Token separation -/

/-- White space of the SQL lexer. -/
def isSqlSpace (c : Char) : Bool :=
  c == ' ' || c == '\t' || c == '\n' || c == '\r' || c.toNat == 0x0C

/-- Whether every place where `pat` starts in the text comes right after a
white-space character; `prev` is the character before the current position. -/
def separatedAt (pat : List Char) : Option Char → List Char → Bool
  | _, [] => true
  | prev, c :: cs =>
    (if pat.isPrefixOf (c :: cs) then
      (match prev with
       | some p => isSqlSpace p
       | none => false)
     else true) && separatedAt pat (some c) cs

/-- Whether every occurrence of `pat` in `s` is immediately preceded by white
space. -/
def precededBySpace (pat s : String) : Bool := separatedAt pat.data none s.data

/-- Whether the text `pat` occurs in `s`. -/
def containsText (pat s : String) : Prop := ∃ before after : String, s = before ++ pat ++ after

/-- A company `c1` named `Acme` with two jobs stored out of id order. -/
def acmeStore : Store :=
  ⟨[⟨"c1", "Acme", "Desc1", .num (.fin 1), .str "http://c1.img"⟩],
   [⟨2, "t2", .num (.fin 200), .str "0.2", "c1"⟩, ⟨1, "t1", .num (.fin 100), .null, "c1"⟩]⟩

/-! ## Integer numerals -/

/-- A text without white space is its own trim. -/
theorem trimChars_of_no_space (cs : List Char) (h : ∀ c ∈ cs, isJSWhiteSpace c = false) :
    trimChars cs = cs := by
  have drop : ∀ l : List Char, (∀ c ∈ l, isJSWhiteSpace c = false) →
      l.dropWhile isJSWhiteSpace = l := by
    intro l hl
    cases l with
    | nil => rfl
    | cons a as => simp [List.dropWhile, hl a (List.mem_cons_self _ _)]
  unfold trimChars
  rw [drop cs h, drop cs.reverse (fun c hc => h c (List.mem_reverse.mp hc)), List.reverse_reverse]

/-- A decimal digit is no white space. -/
theorem not_space_of_digit (c : Char) (h : isDecimalDigit c = true) :
    isJSWhiteSpace c = false := by
  simp only [isDecimalDigit, Bool.and_eq_true, decide_eq_true_eq] at h
  simp only [isJSWhiteSpace, Bool.or_eq_false_iff, Bool.and_eq_false_imp, beq_eq_false_iff_ne,
    decide_eq_true_eq, decide_eq_false_iff_not]
  omega

/-- On a text of digits `takeDigits` reads everything. -/
theorem takeDigits_digits (ds : List Char) (h : ∀ c ∈ ds, isDecimalDigit c = true)
    (acc n : Nat) :
    takeDigits ds acc n =
      (ds.foldl (fun acc c => acc * 10 + (c.toNat - 48)) acc, n + ds.length, []) := by
  induction ds generalizing acc n with
  | nil => rfl
  | cons c cs ih =>
    have hc := h c (List.mem_cons_self _ _)
    rw [takeDigits, if_pos hc, ih (fun d hd => h d (List.mem_cons_of_mem _ hd))]
    simp [Nat.add_assoc, Nat.add_comm 1]

/-- The binary length brackets the number. -/
theorem bitLen_bounds (fuel n : Nat) (hn : 0 < n) (hf : n ≤ fuel) :
    twoPow (bitLen fuel n) ≤ 2 * n ∧ n < twoPow (bitLen fuel n) := by
  induction fuel generalizing n with
  | zero => omega
  | succ f ih =>
    rw [bitLen, if_neg (by omega)]
    rcases Nat.eq_zero_or_pos (n / 2) with h0 | hpos
    · have h1 : n = 1 := by omega
      subst h1
      have : bitLen f (1 / 2) = 0 := by
        cases f <;> simp [bitLen]
      rw [this]
      simp [twoPow]
    · have := ih (n / 2) hpos (by omega)
      simp only [twoPow]
      omega

/-- Cancelling `k` factors of two from `v * 2^k`. -/
theorem stripTwos_pow (k v : Nat) : stripTwos k (v * twoPow k) k = (v, 0) := by
  induction k with
  | zero => simp [stripTwos, twoPow]
  | succ j ih =>
    have e : v * twoPow (j + 1) = 2 * (v * twoPow j) := by
      simp only [twoPow]; ring
    rw [stripTwos, if_neg (by rw [e]; omega), e]
    simpa using ih

/-- An integer below `2^53` is a double: rounding keeps it. -/
theorem roundToDouble_nat (v : Nat) (hv : v < 2 ^ 53) :
    roundToDouble false v 1 = .fin v := by
  rcases Nat.eq_zero_or_pos v with h0 | hpos
  · subst h0; rfl
  · have hb := bitLen_bounds v v hpos (Nat.le_refl v)
    have h1 : bitLen 1 1 = 1 := by decide
    have h53 : twoPow 53 = 2 ^ 53 := by decide
    have hmono : ∀ i j : Nat, i ≤ j → twoPow i ≤ twoPow j := by
      intro i j hij
      induction hij with
      | refl => exact Nat.le_refl _
      | step _ ih => simp only [twoPow]; omega
    have ha1 : 1 ≤ bitLen v v := by
      rcases Nat.eq_zero_or_pos (bitLen v v) with hz | hp
      · rw [hz] at hb; simp [twoPow] at hb; omega
      · exact hp
    have ha53 : bitLen v v ≤ 53 := by
      by_contra hgt
      have := hmono 54 (bitLen v v) (by omega)
      have h54 : twoPow 54 = 2 * 2 ^ 53 := by decide
      omega
    unfold roundToDouble
    rw [if_neg (by omega)]
    simp only [h1]
    generalize bitLen v v = a at hb ha1 ha53
    have hcond : 1 * twoPow a ≤ v * twoPow 1 := by simp [twoPow]; omega
    rw [if_pos hcond]
    obtain ⟨k, hk⟩ : ∃ k, a + k = 53 := ⟨53 - a, by omega⟩
    have hq : max ((a : Int) - (1 : Nat) - 52) (-1074) = -(k : Int) := by
      have : (a : Int) - (1 : Nat) - 52 = -(k : Int) := by omega
      rw [this]; omega
    simp only [hq]
    rcases Nat.eq_zero_or_pos k with hk0 | hkpos
    · subst hk0
      simp [twoPow, mkFinite, Nat.mod_one, Nat.pos_iff_ne_zero.mp hpos]
    · obtain ⟨j, rfl⟩ : ∃ j, k = j + 1 := ⟨k - 1, by omega⟩
      have hneg : ¬ (0 : Int) ≤ -((j + 1 : Nat) : Int) := by omega
      have hto : (- -((j + 1 : Nat) : Int)).toNat = j + 1 := by
        rw [neg_neg, Int.toNat_natCast]
      have hns : -((j + 1 : Nat) : Int) = Int.negSucc j := by
        rw [Int.negSucc_eq]; push_cast; ring
      have hm : v * twoPow (j + 1) ≠ 0 := by
        have := hmono 0 (j + 1) (by omega)
        simp only [twoPow] at this ⊢
        exact Nat.mul_ne_zero (by omega) (by omega)
      simp only [if_neg hneg, hto, Nat.div_one, Nat.mod_one, Nat.mul_zero]
      rw [if_neg (by omega), if_neg (by omega)]
      rw [hns]
      simp only [mkFinite, if_neg hm, stripTwos_pow]
      simp

/-- The decimal length of a number below `10^j` is at most `j`. -/
theorem decLen_le (fuel j n : Nat) (h : n < tenPow j) : decLen fuel n ≤ j := by
  induction fuel generalizing j n with
  | zero => simp [decLen]
  | succ f ih =>
    rw [decLen]
    split
    · omega
    · rename_i hn
      cases j with
      | zero => simp [tenPow] at h; omega
      | succ i =>
        have := ih i (n / 10) (by simp only [tenPow] at h; omega)
        omega

/-- The double nearest to the integer `v` below `2^53` is `v`. -/
theorem decimalToDouble_nat (v : Nat) (hv : v < 2 ^ 53) :
    decimalToDouble false v 0 = .fin v := by
  unfold decimalToDouble
  split
  · rename_i h0; subst h0; rfl
  · have h16 : (2 : Nat) ^ 53 < tenPow 16 := by decide
    have hd := decLen_le v 16 v (by omega)
    simp only []
    rw [if_neg (by omega), if_neg (by omega), if_pos (Int.le_refl 0)]
    simp [tenPow, roundToDouble_nat v hv]

/-- A numeral made of decimal digits only, denoting an integer below `2^53`,
converts to that integer. -/
theorem stringToNumber_digits (ds : List Char) (hne : ds ≠ [])
    (hd : ∀ c ∈ ds, isDecimalDigit c = true) (hv : digitsNat ds < 2 ^ 53) :
    stringToNumber ⟨ds⟩ = .fin (digitsNat ds) := by
  have hparse : parseUnsignedDecimal false ds = .fin (digitsNat ds) := by
    obtain ⟨c, cs, rfl⟩ : ∃ c cs, ds = c :: cs := by
      cases ds with
      | nil => exact absurd rfl hne
      | cons c cs => exact ⟨c, cs, rfl⟩
    have hc := hd c (List.mem_cons_self _ _)
    have hI : c ≠ 'I' := by
      intro h; subst h; simp [isDecimalDigit] at hc
    unfold parseUnsignedDecimal
    rw [if_neg (by intro h; exact hI (List.cons.inj h).1)]
    have hfold : List.foldl (fun acc c => acc * 10 + (c.toNat - 48)) 0 (c :: cs)
        = digitsNat (c :: cs) := rfl
    simp only [takeDigits_digits (c :: cs) hd 0 0, hfold, List.length_cons]
    rw [if_pos (by omega)]
    simp [decimalToDouble_nat _ hv]
  have hx : ∀ c : Char, c ∈ ['x', 'X', 'o', 'O', 'b', 'B', '+', '-'] →
      isDecimalDigit c = false := by decide
  unfold stringToNumber
  simp only [trimChars_of_no_space ds (fun c hc => not_space_of_digit c (hd c hc))]
  split
  all_goals first
    | exact hparse
    | (exfalso; exact hne rfl)
    | (exfalso
       have h2 := hd _ (List.mem_cons_of_mem _ (List.mem_cons_self _ _))
       rw [hx _ (by simp)] at h2
       exact Bool.false_ne_true h2)
    | (exfalso
       have h2 := hd _ (List.mem_cons_self _ _)
       rw [hx _ (by simp)] at h2
       exact Bool.false_ne_true h2)

/-! ## The partial-update clause builder -/

/-- The builder produces one fragment per field. -/
theorem setFragments_length (M : List (String × String)) (F : List (String × JSVal))
    (idx : Nat) : (setFragments M F idx).length = F.length := by
  induction F generalizing idx with
  | nil => rfl
  | cons p rest ih => obtain ⟨k, v⟩ := p; simp [setFragments, ih]

/-- The fragment at position `i` names the resolved column of the key at
position `i` and the placeholder `idx + i + 1`. -/
theorem setFragments_get (M : List (String × String)) (F : List (String × JSVal))
    (idx i : Nat) (k : String) (v : JSVal) (h : F[i]? = some (k, v)) :
    (setFragments M F idx)[i]? =
      some ("\"" ++ ((M.lookup k).getD k) ++ "\"=$" ++ toString (idx + i + 1)) := by
  induction F generalizing idx i with
  | nil => simp at h
  | cons p rest ih =>
    obtain ⟨k0, v0⟩ := p
    cases i with
    | zero =>
      simp at h
      obtain ⟨rfl, rfl⟩ := h
      simp [setFragments]
    | succ j =>
      simp at h
      have e : idx + 1 + j + 1 = idx + (j + 1) + 1 := by omega
      have step := ih (idx + 1) j h
      rw [e] at step
      simpa [setFragments] using step

/-- C1: for a non-empty field mapping `F` (in iteration order) and any name map
`M`, `sqlForPartialUpdate F M` returns `setCols` equal to the fragments joined by
a comma and a space and `values` equal to the values of `F` in order; there are
exactly `|F|` fragments and `|F|` values, the fragment at position `i` (from 0) is
`"c"=$(i+1)` with `c` the entry of `M` for the key at position `i`, or the key
itself when `M` has none, and the value at position `i` is that key's value. -/
theorem sqlForPartialUpdate_fragments (F : List (String × JSVal))
    (M : List (String × String)) (hF : F ≠ []) :
    ∃ frags : List String,
      sqlForPartialUpdate F M = .ok (", ".intercalate frags, F.map Prod.snd) ∧
      frags.length = F.length ∧ (F.map Prod.snd).length = F.length ∧
      ∀ (i : Nat) (k : String) (v : JSVal), F[i]? = some (k, v) →
        frags[i]? = some ("\"" ++ (match M.lookup k with
                                     | some c => c
                                     | none => k) ++ "\"=$" ++ toString (i + 1)) ∧
        (F.map Prod.snd)[i]? = some v := by
  refine ⟨setFragments M F 0, ?_, setFragments_length M F 0, by simp, ?_⟩
  · cases F with
    | nil => exact absurd rfl hF
    | cons p rest => rfl
  · intro i k v h
    refine ⟨?_, by simp [h]⟩
    rw [setFragments_get M F 0 i k v h]
    cases M.lookup k <;> simp

/-- The example of `src/helpers/sql.test.js`, lines 4-12 and 19-26. -/
theorem sqlForPartialUpdate_fragments_witness :
    ([("firstName", JSVal.str "Aliya"), ("age", JSVal.num (.fin 32))] :
        List (String × JSVal)) ≠ [] ∧
    sqlForPartialUpdate [("firstName", .str "Aliya"), ("age", .num (.fin 32))]
        [("firstName", "first_name"), ("lastName", "last_name")]
      = .ok ("\"first_name\"=$1, \"age\"=$2", [.str "Aliya", .num (.fin 32)]) ∧
    ∃ frags : List String,
      sqlForPartialUpdate [("firstName", .str "Aliya"), ("age", .num (.fin 32))]
          [("firstName", "first_name"), ("lastName", "last_name")]
        = .ok (", ".intercalate frags, [.str "Aliya", .num (.fin 32)]) ∧
      frags.length = 2 :=
  ⟨by decide, by decide,
    (sqlForPartialUpdate_fragments [("firstName", .str "Aliya"), ("age", .num (.fin 32))]
      [("firstName", "first_name"), ("lastName", "last_name")] (by decide)).imp
      fun _ h => ⟨h.1, h.2.1⟩⟩

/-- C2: for every name map `M`, `sqlForPartialUpdate` on the empty mapping fails
with a `BadRequestError` and returns no clause; `Company.update(handle, [])`
fails with that same error and issues no statement, whatever the store and the
handle. -/
theorem sqlForPartialUpdate_empty (M : List (String × String)) :
    ∃ message : String,
      sqlForPartialUpdate [] M = .error (.BadRequestError message) ∧
      ∀ (db : Db) (handle : JSVal),
        (Company.update db handle []).result = .error (.BadRequestError message) ∧
        (Company.update db handle []).issued = [] :=
  ⟨"No data", rfl, fun _ _ => ⟨rfl, rfl⟩⟩

/-! ## `Company.filterBy` -/

/-- C3: for all numbers `a > b` and every `name`, `Company.filterBy(a, b, name)`
throws the `BadRequestError` "Minimum cannot be greater than maximum" and
issues no statement, whatever the store answers. -/
theorem company_filterBy_min_gt_max (db : Db) (a b : Int) (name : JSVal) (h : b < a) :
    (Company.filterBy db (.num (.fin a)) (.num (.fin b)) name).result
        = .error (.BadRequestError "Minimum cannot be greater than maximum") ∧
    (Company.filterBy db (.num (.fin a)) (.num (.fin b)) name).issued = [] := by
  have g : jsGt (.num (.fin a)) (.num (.fin b)) = true := by
    simp [jsGt, toNumber, JSNum.value, ExtValue.lt, twoPow, h]
  simp [Company.filterBy, g]

/-- The case `min = 10`, `max = 5` of section 8. -/
theorem company_filterBy_min_gt_max_witness :
    (5 : Int) < 10 ∧
    (Company.filterBy (fun _ => []) (.num (.fin 10)) (.num (.fin 5)) .undefined).result
        = .error (.BadRequestError "Minimum cannot be greater than maximum") ∧
    (Company.filterBy (fun _ => []) (.num (.fin 10)) (.num (.fin 5)) .undefined).issued = [] :=
  ⟨by decide, company_filterBy_min_gt_max (fun _ => []) 10 5 .undefined (by decide)⟩

/-- C4, evaluated at `GET /companies?min=10&max=5`: the handler passes the
strings "10" and "5" to `Company.filterBy`, whose check compares them as
strings; the statement is issued with the values 10 and 5, and the result is
not a `BadRequestError`. -/
theorem getCompanies_min10_max5 (db : Db) :
    (getCompanies db (.str "10") (.str "5") .undefined).issued =
      [⟨"\n    SELECT \n      handle,\n      name,\n      description,\n      num_employees AS \"numEmployees\",\n      logo_url AS \"logoUrl\"\n    FROM companies\n    WHERE 1=1 AND num_employees >= $1  AND num_employees <= $2ORDER BY num_employees",
        [.num (.fin 10), .num (.fin 5)]⟩] ∧
    (∀ message, (getCompanies db (.str "10") (.str "5") .undefined).result
      ≠ .error (.BadRequestError message)) := by
  have e : getCompanies db (.str "10") (.str "5") .undefined
      = Company.filterBy db (.str "10") (.str "5") .undefined := by
    rfl
  have g : jsGt (.str "10") (.str "5") = false := by decide
  rw [e]
  unfold Company.filterBy
  simp only [g]
  constructor
  · split
    · rename_i h; simp at h
    · split <;> rfl
  · intro message
    split
    · rename_i h; simp at h
    · split <;> simp

/-- Past the range check, `Company.filterBy` sends the built statement and
maps the answer. -/
theorem company_filterBy_eq (db : Db) (min max name : JSVal)
    (h : ¬ (min ≠ .undefined ∧ max ≠ .undefined ∧ jsGt min max = true)) :
    Company.filterBy db min max name =
      if (db (Company.filterBy.built min max name)).length = 0 then
        ⟨.error (.NotFoundError "No company in that Filtered Range"),
          [Company.filterBy.built min max name]⟩
      else ⟨.ok (db (Company.filterBy.built min max name)),
          [Company.filterBy.built min max name]⟩ := by
  unfold Company.filterBy
  rw [if_neg h]
  rfl

/-- Past the range check, exactly the built statement is issued. -/
theorem company_filterBy_issued (db : Db) (min max name : JSVal)
    (h : ¬ (min ≠ .undefined ∧ max ≠ .undefined ∧ jsGt min max = true)) :
    (Company.filterBy db min max name).issued = [Company.filterBy.built min max name] := by
  rw [company_filterBy_eq db min max name h]
  split <;> rfl

/-- The text built by the four blocks is the text section 4.2 prescribes. -/
theorem company_built_text (min max name : JSVal) :
    (Company.filterBy.built min max name).text = companyFilterText min max name := by
  by_cases h1 : min = .undefined <;> by_cases h2 : max = .undefined <;>
    by_cases h3 : name = .undefined <;>
    simp only [Company.filterBy.built, Company.filterBy.handleMin, Company.filterBy.handleMax,
      Company.filterBy.handleName, Company.filterBy.addOrderBy, companyFilterText,
      companySuppliedFilters, h1, h2, h3, ne_eq, not_true_eq_false, not_false_eq_true,
      if_true, if_false, List.nil_append, List.append_nil, List.length_append,
      List.length_cons, List.length_nil, List.enum, List.enumFrom, List.map, String.join,
      List.foldl, andFragment, List.cons_append] <;> decide

/-- The values bound by the blocks are the values of the supplied filters. -/
theorem company_built_values (min max name : JSVal) :
    (Company.filterBy.built min max name).values =
      (companySuppliedFilters min max name).map (fun f => f.value) := by
  by_cases h1 : min = .undefined <;> by_cases h2 : max = .undefined <;>
    by_cases h3 : name = .undefined <;>
    simp only [Company.filterBy.built, Company.filterBy.handleMin, Company.filterBy.handleMax,
      Company.filterBy.handleName, Company.filterBy.addOrderBy, companyFilterText,
      companySuppliedFilters, h1, h2, h3, ne_eq, not_true_eq_false, not_false_eq_true,
      if_true, if_false] <;> rfl

/-- C5: for every `min`, `max`, `name` passing the range check, the statement
`Company.filterBy` issues has the text made of the base select, one `AND`
fragment per supplied filter in the order min, max, name, the fragment at
position `i` (from 0) carrying placeholder `$(i+1)`, and the sort clause; its
values are the values of the supplied filters in the same order (`min` and `max`
converted to numbers, `name` followed by `%`), so there are as many values as
supplied filters.  The conversion is the one of unary `+`: a number is bound as
it is and a numeral of decimal digits as the integer it denotes (below `2^53`,
where every integer is a double); `min` owns the first value, `max` the next
one, and a string `name` is bound last as `name%`. -/
theorem company_filterBy_fragments (db : Db) (min max name : JSVal)
    (h : ¬ (min ≠ .undefined ∧ max ≠ .undefined ∧ jsGt min max = true)) :
    ∃ q : Query, (Company.filterBy db min max name).issued = [q] ∧
      q.text = companyFilterText min max name ∧
      q.values = (companySuppliedFilters min max name).map (fun f => f.value) ∧
      q.values.length = (companySuppliedFilters min max name).length ∧
      (∀ x : JSNum, min = .num x → q.values[0]? = some (.num x)) ∧
      (∀ ds : List Char, ds ≠ [] → (∀ c ∈ ds, isDecimalDigit c = true) →
        digitsNat ds < 2 ^ 53 → min = .str ⟨ds⟩ →
        q.values[0]? = some (.num (.fin (digitsNat ds)))) ∧
      (∀ x : JSNum, max = .num x →
        q.values[if min = .undefined then 0 else 1]? = some (.num x)) ∧
      (∀ ds : List Char, ds ≠ [] → (∀ c ∈ ds, isDecimalDigit c = true) →
        digitsNat ds < 2 ^ 53 → max = .str ⟨ds⟩ →
        q.values[if min = .undefined then 0 else 1]? = some (.num (.fin (digitsNat ds)))) ∧
      (∀ s : String, name = .str s → q.values.getLast? = some (.str (s ++ "%"))) := by
  refine ⟨Company.filterBy.built min max name, company_filterBy_issued db min max name h,
    company_built_text min max name, company_built_values min max name,
    by rw [company_built_values, List.length_map], ?_, ?_, ?_, ?_, ?_⟩
  · intro x hx
    subst hx
    rw [company_built_values]
    simp [companySuppliedFilters, toNumber]
  · intro ds hne hd hv hx
    subst hx
    rw [company_built_values]
    simp [companySuppliedFilters, toNumber, stringToNumber_digits ds hne hd hv]
  · intro x hx
    subst hx
    rw [company_built_values]
    by_cases h1 : min = .undefined <;> simp [companySuppliedFilters, toNumber, h1]
  · intro ds hne hd hv hx
    subst hx
    rw [company_built_values]
    by_cases h1 : min = .undefined <;>
      simp [companySuppliedFilters, toNumber, h1, stringToNumber_digits ds hne hd hv]
  · intro s hx
    subst hx
    rw [company_built_values]
    simp [companySuppliedFilters, jsToString]

/-- The route's strings `min = "1.5"`, `max = "16"`, `name = "an"`: the values
bound are the numbers 1.5 and 16 and the pattern `an%`; the numerals `0x10` and
`1e3` are bound as 16 and 1000. -/
theorem company_filterBy_fragments_witness :
    ¬ (JSVal.str "1.5" ≠ .undefined ∧ JSVal.str "16" ≠ .undefined ∧
        jsGt (.str "1.5") (.str "16") = true) ∧
    (Company.filterBy (fun _ => []) (.str "1.5") (.str "16") (.str "an")).issued =
      [⟨"\n    SELECT \n      handle,\n      name,\n      description,\n      num_employees AS \"numEmployees\",\n      logo_url AS \"logoUrl\"\n    FROM companies\n    WHERE 1=1 AND num_employees >= $1  AND num_employees <= $2 AND name ILIKE $3ORDER BY name",
        [.num (.dyadic 3 1), .num (.fin 16), .str "an%"]⟩] ∧
    (Company.filterBy (fun _ => []) (.str "1e3") .undefined .undefined).issued.map
      (fun q => q.values) = [[.num (.fin 1000)]] ∧
    (Company.filterBy (fun _ => []) .undefined (.str "0x10") .undefined).issued.map
      (fun q => q.values) = [[.num (.fin 16)]] ∧
    ∃ q : Query,
      (Company.filterBy (fun _ => []) (.str "1.5") (.str "16") (.str "an")).issued = [q] ∧
      q.values = (companySuppliedFilters (.str "1.5") (.str "16") (.str "an")).map
        (fun f => f.value) ∧
      q.values[0]? = some (.num (.dyadic 3 1)) ∧
      q.values.getLast? = some (.str ("an" ++ "%")) :=
  ⟨by decide, by decide, by decide, by decide,
    match company_filterBy_fragments (fun _ => []) (.str "1.5") (.str "16") (.str "an")
        (by decide) with
    | ⟨q, hq, _, hvals, _, _, _, _, _, hname⟩ =>
      ⟨q, hq, hvals, by rw [hvals]; decide, hname "an" rfl⟩⟩

/-- C6: for every `min`, `max`, `name` for which a statement is built, its text
is a filter part followed by `ORDER BY name` when `name` is supplied and by
`ORDER BY num_employees` otherwise; `ORDER BY` occurs once in the text, and every
`AND` fragment (one per supplied filter) lies in the part before it. -/
theorem company_filterBy_order_by (db : Db) (min max name : JSVal)
    (h : ¬ (min ≠ .undefined ∧ max ≠ .undefined ∧ jsGt min max = true)) :
    ∃ (q : Query) (filters : String),
      (Company.filterBy db min max name).issued = [q] ∧
      q.text = filters ++ "ORDER BY " ++
        (if name ≠ .undefined then "name" else "num_employees") ∧
      occurrences "ORDER BY" q.text = 1 ∧
      occurrences " AND " filters = (companySuppliedFilters min max name).length ∧
      occurrences " AND " q.text = (companySuppliedFilters min max name).length := by
  refine ⟨Company.filterBy.built min max name,
    (Company.filterBy.handleName name (Company.filterBy.handleMax max
      (Company.filterBy.handleMin min
        ⟨"\n    SELECT \n      handle,\n      name,\n      description,\n      num_employees AS \"numEmployees\",\n      logo_url AS \"logoUrl\"\n    FROM companies\n    WHERE 1=1", []⟩))).query,
    company_filterBy_issued db min max name h, ?_⟩
  by_cases h1 : min = .undefined <;> by_cases h2 : max = .undefined <;>
    by_cases h3 : name = .undefined <;>
    simp only [Company.filterBy.built, Company.filterBy.handleMin, Company.filterBy.handleMax,
      Company.filterBy.handleName, Company.filterBy.addOrderBy,
      companySuppliedFilters, h1, h2, h3, ne_eq, not_true_eq_false, not_false_eq_true,
      if_true, if_false, List.nil_append, List.append_nil, List.length_append,
      List.length_cons, List.length_nil, List.cons_append] <;> decide

/-- Only `max = 7` supplied: the sort column is `num_employees`. -/
theorem company_filterBy_order_by_witness :
    ¬ (JSVal.undefined ≠ .undefined ∧ JSVal.num (.fin 7) ≠ .undefined ∧
        jsGt .undefined (.num (.fin 7)) = true) ∧
    ∃ (q : Query) (filters : String),
      (Company.filterBy (fun _ => []) .undefined (.num (.fin 7)) .undefined).issued = [q] ∧
      q.text = filters ++ "ORDER BY " ++
        (if JSVal.undefined ≠ .undefined then "name" else "num_employees") ∧
      occurrences "ORDER BY" q.text = 1 ∧
      occurrences " AND " filters =
        (companySuppliedFilters .undefined (.num (.fin 7)) .undefined).length ∧
      occurrences " AND " q.text =
        (companySuppliedFilters .undefined (.num (.fin 7)) .undefined).length :=
  ⟨by decide,
    company_filterBy_order_by (fun _ => []) .undefined (.num (.fin 7)) .undefined (by decide)⟩

/-! ## `Job.filterby` -/

/-- With a filter supplied, `Job.filterby` sends the built statement and maps
the answer. -/
theorem job_filterby_eq (db : Db) (title minSalary hasEquity : JSVal)
    (h : ¬ (title = .undefined ∧ minSalary = .undefined ∧ hasEquity = .undefined)) :
    Job.filterby db title minSalary hasEquity =
      if (db (Job.filterby.built title minSalary hasEquity)).length = 0 then
        ⟨.error (.NotFoundError "No company in that Filtered Range"),
          [Job.filterby.built title minSalary hasEquity]⟩
      else ⟨.ok (db (Job.filterby.built title minSalary hasEquity)),
          [Job.filterby.built title minSalary hasEquity]⟩ := by
  unfold Job.filterby
  simp only [if_neg h]
  rfl

/-- With a filter supplied, exactly the built statement is issued. -/
theorem job_filterby_issued (db : Db) (title minSalary hasEquity : JSVal)
    (h : ¬ (title = .undefined ∧ minSalary = .undefined ∧ hasEquity = .undefined)) :
    (Job.filterby db title minSalary hasEquity).issued =
      [Job.filterby.built title minSalary hasEquity] := by
  rw [job_filterby_eq db title minSalary hasEquity h]
  split <;> rfl

/-- C7: `Job.filterby` throws `NotFoundError` "No filters provided" if and only
if `title`, `minSalary` and `hasEquity` are all undefined, and then issues no
statement; with `hasEquity = false` and the other two undefined the unrestricted
statement (base select, no values) is issued. -/
theorem job_filterby_no_filters (db : Db) (title minSalary hasEquity : JSVal) :
    ((Job.filterby db title minSalary hasEquity).result
        = .error (.NotFoundError "No filters provided") ↔
      (title = .undefined ∧ minSalary = .undefined ∧ hasEquity = .undefined)) ∧
    (Job.filterby db .undefined .undefined .undefined).issued = [] ∧
    (Job.filterby db .undefined .undefined (.bool false)).issued =
      [⟨"\n    SELECT \n      id,\n      title, \n      salary, \n      equity, \n      company_handle\n    FROM jobs\n    WHERE 1=1", []⟩] := by
  refine ⟨⟨?_, ?_⟩, rfl, ?_⟩
  · intro hr
    by_contra hn
    rw [job_filterby_eq db title minSalary hasEquity hn] at hr
    split at hr
    · have hm : "No company in that Filtered Range" ≠ "No filters provided" := by decide
      exact hm (ExpressError.NotFoundError.inj (Except.error.inj hr))
    · cases hr
  · rintro ⟨rfl, rfl, rfl⟩
    rfl
  · rw [job_filterby_issued db _ _ _ (by decide)]
    rfl

/-- The text built by the three blocks: the numbered fragments of the supplied
title and minSalary filters, then the equity restriction when `hasEquity` is
`true`. -/
theorem job_built_text (title minSalary hasEquity : JSVal) :
    (Job.filterby.built title minSalary hasEquity).text =
      jobFilterText title minSalary ++
        (if hasEquity = .bool true then " AND equity::float > 0" else "") := by
  by_cases h1 : title = .undefined <;> by_cases h2 : minSalary = .undefined <;>
    by_cases h3 : hasEquity = .bool true <;>
    simp only [Job.filterby.built, Job.filterby.handleTitle, Job.filterby.handleMinSalary,
      Job.filterby.handleHasEquity, jobFilterText,
      jobSuppliedFilters, h1, h2, h3, ne_eq, not_true_eq_false, not_false_eq_true,
      if_true, if_false, List.nil_append, List.append_nil, List.length_append,
      List.length_cons, List.length_nil, List.enum, List.enumFrom, List.map, String.join,
      List.foldl, andFragment, List.cons_append] <;> decide

/-- The values bound by the blocks are those of the title and minSalary
filters. -/
theorem job_built_values (title minSalary hasEquity : JSVal) :
    (Job.filterby.built title minSalary hasEquity).values =
      (jobSuppliedFilters title minSalary).map (fun f => f.value) := by
  by_cases h1 : title = .undefined <;> by_cases h2 : minSalary = .undefined <;>
    by_cases h3 : hasEquity = .bool true <;>
    simp only [Job.filterby.built, Job.filterby.handleTitle, Job.filterby.handleMinSalary,
      Job.filterby.handleHasEquity,
      jobSuppliedFilters, h1, h2, h3, ne_eq, not_true_eq_false, not_false_eq_true,
      if_true, if_false] <;> rfl

/-- The equity restriction occurs once when `hasEquity` is `true`, never
otherwise. -/
theorem job_built_equity_count (title minSalary hasEquity : JSVal) :
    occurrences "equity::float > 0" (Job.filterby.built title minSalary hasEquity).text =
      (if hasEquity = .bool true then 1 else 0) := by
  by_cases h1 : title = .undefined <;> by_cases h2 : minSalary = .undefined <;>
    by_cases h3 : hasEquity = .bool true <;>
    simp only [Job.filterby.built, Job.filterby.handleTitle, Job.filterby.handleMinSalary,
      Job.filterby.handleHasEquity,
      h1, h2, h3, ne_eq, not_true_eq_false, not_false_eq_true,
      if_true, if_false, List.nil_append, List.append_nil, List.length_append,
      List.length_cons, List.length_nil, List.cons_append] <;> decide

/-- C8: for `title`, `minSalary`, `hasEquity` not all undefined, the statement
`Job.filterby` issues contains the restriction `equity::float > 0` exactly when
`hasEquity` is `true` (once then, not at all otherwise); the restriction binds no
value: the values are the title pattern `%title%` and the numeric `minSalary`, in
that order, for the supplied ones, with placeholders numbered from `$1` in that
order; when `hasEquity` is `false` or undefined the text is the one built from
`title` and `minSalary` alone.  A string `title` is bound first as `%title%`;
`minSalary` owns the next value and is converted as by unary `+`: a number is
bound as it is and a numeral of decimal digits as the integer it denotes (below
`2^53`, where every integer is a double). -/
theorem job_filterby_equity (db : Db) (title minSalary hasEquity : JSVal)
    (h : ¬ (title = .undefined ∧ minSalary = .undefined ∧ hasEquity = .undefined)) :
    ∃ q : Query, (Job.filterby db title minSalary hasEquity).issued = [q] ∧
      q.text = jobFilterText title minSalary ++
        (if hasEquity = .bool true then " AND equity::float > 0" else "") ∧
      occurrences "equity::float > 0" q.text = (if hasEquity = .bool true then 1 else 0) ∧
      q.values = (jobSuppliedFilters title minSalary).map (fun f => f.value) ∧
      (hasEquity = .bool false ∨ hasEquity = .undefined →
        q.text = jobFilterText title minSalary) ∧
      (∀ s : String, title = .str s → q.values[0]? = some (.str ("%" ++ s ++ "%"))) ∧
      (∀ x : JSNum, minSalary = .num x →
        q.values[if title = .undefined then 0 else 1]? = some (.num x)) ∧
      (∀ ds : List Char, ds ≠ [] → (∀ c ∈ ds, isDecimalDigit c = true) →
        digitsNat ds < 2 ^ 53 → minSalary = .str ⟨ds⟩ →
        q.values[if title = .undefined then 0 else 1]? =
          some (.num (.fin (digitsNat ds)))) := by
  refine ⟨Job.filterby.built title minSalary hasEquity,
    job_filterby_issued db title minSalary hasEquity h,
    job_built_text title minSalary hasEquity,
    job_built_equity_count title minSalary hasEquity,
    job_built_values title minSalary hasEquity, ?_, ?_, ?_, ?_⟩
  · intro hf
    rw [job_built_text]
    rcases hf with hf | hf <;> simp [hf]
  · intro s hx
    subst hx
    rw [job_built_values]
    simp [jobSuppliedFilters, jsToString]
  · intro x hx
    subst hx
    rw [job_built_values]
    by_cases h1 : title = .undefined <;> simp [jobSuppliedFilters, toNumber, h1]
  · intro ds hne hd hv hx
    subst hx
    rw [job_built_values]
    by_cases h1 : title = .undefined <;>
      simp [jobSuppliedFilters, toNumber, h1, stringToNumber_digits ds hne hd hv]

/-- The filters `title = "t1"`, `minSalary = "1.5"`, `hasEquity = true`: the
values bound are `%t1%` and the number 1.5; the numerals `1e3` and `0x10` are
bound as 1000 and 16. -/
theorem job_filterby_equity_witness :
    ¬ (JSVal.str "t1" = .undefined ∧ JSVal.str "1.5" = .undefined ∧
        JSVal.bool true = .undefined) ∧
    (Job.filterby (fun _ => []) (.str "t1") (.str "1.5") (.bool true)).issued =
      [⟨"\n    SELECT \n      id,\n      title, \n      salary, \n      equity, \n      company_handle\n    FROM jobs\n    WHERE 1=1 AND title ILIKE $1 AND salary >= $2 AND equity::float > 0",
        [.str "%t1%", .num (.dyadic 3 1)]⟩] ∧
    (Job.filterby (fun _ => []) .undefined (.str "1e3") .undefined).issued.map
      (fun q => q.values) = [[.num (.fin 1000)]] ∧
    (Job.filterby (fun _ => []) .undefined (.str "0x10") .undefined).issued.map
      (fun q => q.values) = [[.num (.fin 16)]] ∧
    (Job.filterby (fun _ => []) .undefined (.num (.fin 12340)) .undefined).issued.map
      (fun q => q.values) = [[.num (.fin 12340)]] ∧
    ∃ q : Query,
      (Job.filterby (fun _ => []) (.str "t1") (.str "1.5") (.bool true)).issued = [q] ∧
      q.text = jobFilterText (.str "t1") (.str "1.5") ++
        (if JSVal.bool true = .bool true then " AND equity::float > 0" else "") ∧
      occurrences "equity::float > 0" q.text =
        (if JSVal.bool true = .bool true then 1 else 0) ∧
      q.values = (jobSuppliedFilters (.str "t1") (.str "1.5")).map (fun f => f.value) ∧
      q.values[0]? = some (.str ("%" ++ "t1" ++ "%")) :=
  ⟨by decide, by decide, by decide, by decide, by decide,
    match job_filterby_equity (fun _ => []) (.str "t1") (.str "1.5") (.bool true)
        (by decide) with
    | ⟨q, hq, htext, hocc, hvals, _, htitle, _, _⟩ =>
      ⟨q, hq, htext, hocc, hvals, htitle "t1" rfl⟩⟩

/-! ## Empty answers -/

/-- C9: for `Company.filterBy` past its range check and for `Job.filterby` with
a filter supplied, with `q` the statement issued and `db q` the rows the store
answers: the operation throws a `NotFoundError` if and only if `db q` is empty,
and otherwise returns `db q` unchanged. -/
theorem filtered_search_no_match (db : Db)
    (min max name title minSalary hasEquity : JSVal)
    (hc : ¬ (min ≠ .undefined ∧ max ≠ .undefined ∧ jsGt min max = true))
    (hj : ¬ (title = .undefined ∧ minSalary = .undefined ∧ hasEquity = .undefined)) :
    (∃ q : Query, (Company.filterBy db min max name).issued = [q] ∧
      ((∃ message, (Company.filterBy db min max name).result
          = .error (.NotFoundError message)) ↔ db q = []) ∧
      (db q ≠ [] → (Company.filterBy db min max name).result = .ok (db q))) ∧
    (∃ q : Query, (Job.filterby db title minSalary hasEquity).issued = [q] ∧
      ((∃ message, (Job.filterby db title minSalary hasEquity).result
          = .error (.NotFoundError message)) ↔ db q = []) ∧
      (db q ≠ [] → (Job.filterby db title minSalary hasEquity).result = .ok (db q))) := by
  constructor
  · refine ⟨Company.filterBy.built min max name, company_filterBy_issued db min max name hc,
      ?_, ?_⟩
    · rw [company_filterBy_eq db min max name hc]
      by_cases he : db (Company.filterBy.built min max name) = []
      · simp [he]
      · simp [he]
    · intro he
      rw [company_filterBy_eq db min max name hc]
      simp [he]
  · refine ⟨Job.filterby.built title minSalary hasEquity,
      job_filterby_issued db title minSalary hasEquity hj, ?_, ?_⟩
    · rw [job_filterby_eq db title minSalary hasEquity hj]
      by_cases he : db (Job.filterby.built title minSalary hasEquity) = []
      · simp [he]
      · simp [he]
    · intro he
      rw [job_filterby_eq db title minSalary hasEquity hj]
      simp [he]

/-- On `sampleStore` the company search by `min = 1` returns the stored row and
the job search by title `t999` throws. -/
theorem filtered_search_no_match_witness :
    ¬ (JSVal.num (.fin 1) ≠ .undefined ∧ JSVal.undefined ≠ .undefined ∧
        jsGt (.num (.fin 1)) .undefined = true) ∧
    ¬ (JSVal.str "t999" = .undefined ∧ JSVal.undefined = .undefined ∧
        JSVal.undefined = .undefined) ∧
    (Company.filterBy sampleStore (.num (.fin 1)) .undefined .undefined).result
      = .ok [[("handle", .str "c1")]] ∧
    (Job.filterby sampleStore (.str "t999") .undefined .undefined).result
      = .error (.NotFoundError "No company in that Filtered Range") ∧
    ((∃ q : Query,
      (Company.filterBy sampleStore (.num (.fin 1)) .undefined .undefined).issued = [q] ∧
      ((∃ message, (Company.filterBy sampleStore (.num (.fin 1)) .undefined .undefined).result
          = .error (.NotFoundError message)) ↔ sampleStore q = []) ∧
      (sampleStore q ≠ [] →
        (Company.filterBy sampleStore (.num (.fin 1)) .undefined .undefined).result
          = .ok (sampleStore q))) ∧
    (∃ q : Query,
      (Job.filterby sampleStore (.str "t999") .undefined .undefined).issued = [q] ∧
      ((∃ message, (Job.filterby sampleStore (.str "t999") .undefined .undefined).result
          = .error (.NotFoundError message)) ↔ sampleStore q = []) ∧
      (sampleStore q ≠ [] →
        (Job.filterby sampleStore (.str "t999") .undefined .undefined).result
          = .ok (sampleStore q)))) :=
  ⟨by decide, by decide, by decide, by decide,
    filtered_search_no_match sampleStore
      (.num (.fin 1)) .undefined .undefined (.str "t999") .undefined .undefined
      (by decide) (by decide)⟩

/-! ## `Job.create` -/

/-- With a stored row carrying the normalized pair, `Job.create` throws and leaves
the table as it was. -/
theorem job_create_duplicate (tbl : JobsTable) (title : String) (salary equity : JSVal)
    (company_handle : String)
    (hdup : ∃ r ∈ tbl.rows, r.title = jsToLowerCase (jsTrim title) ∧
      r.company_handle = jsToLowerCase (jsTrim company_handle)) :
    Job.create tbl title salary equity company_handle =
      (.error (.BadRequestError ("Duplicate Job: " ++ jsToLowerCase (jsTrim title) ++
        " from " ++ jsToLowerCase (jsTrim company_handle))), tbl) := by
  obtain ⟨r, hr, ht, hh⟩ := hdup
  unfold Job.create
  have hne : tbl.selectTitleHandle (jsToLowerCase (jsTrim title))
      (jsToLowerCase (jsTrim company_handle)) ≠ [] := by
    unfold JobsTable.selectTitleHandle
    intro hnil
    have hmem : r ∈ tbl.rows.filter (fun r => decide (r.title = jsToLowerCase (jsTrim title) ∧
        r.company_handle = jsToLowerCase (jsTrim company_handle))) := by
      simp [List.mem_filter, hr, ht, hh]
    rw [List.map_eq_nil_iff] at hnil
    rw [hnil] at hmem
    cases hmem
  cases hsel : tbl.selectTitleHandle (jsToLowerCase (jsTrim title))
      (jsToLowerCase (jsTrim company_handle)) with
  | nil => exact absurd hsel hne
  | cons p ps => simp [hsel]

/-- With no stored row carrying the normalized pair, `Job.create` appends the
normalized row under the next id and returns it. -/
theorem job_create_fresh (tbl : JobsTable) (title : String) (salary equity : JSVal)
    (company_handle : String)
    (hfresh : ∀ r ∈ tbl.rows, ¬ (r.title = jsToLowerCase (jsTrim title) ∧
      r.company_handle = jsToLowerCase (jsTrim company_handle))) :
    Job.create tbl title salary equity company_handle =
      (.ok ⟨tbl.nextId, jsToLowerCase (jsTrim title), salary, equity,
          jsToLowerCase (jsTrim company_handle)⟩,
        ⟨tbl.rows ++ [⟨tbl.nextId, jsToLowerCase (jsTrim title), salary, equity,
          jsToLowerCase (jsTrim company_handle)⟩], tbl.nextId + 1⟩) := by
  unfold Job.create
  have hsel : tbl.selectTitleHandle (jsToLowerCase (jsTrim title))
      (jsToLowerCase (jsTrim company_handle)) = [] := by
    unfold JobsTable.selectTitleHandle
    rw [List.map_eq_nil_iff, List.filter_eq_nil_iff]
    intro r hr
    simpa using hfresh r hr
  simp [hsel, JobsTable.insertJob]

/-- C10: over a `jobs` table holding no row with the normalized pair of
`(title, company_handle)`, `Job.create` stores (appends) and returns the row whose
title and company handle are the trimmed, lower-cased arguments; a later
`Job.create` whose trimmed, lower-cased pair equals that pair is rejected with a
`BadRequestError` and leaves the table unchanged, as is every `Job.create` whose
normalized pair equals that of a row stored in the table it runs on. -/
theorem job_create_normalizes (tbl : JobsTable) (title company_handle : String)
    (salary equity : JSVal) (title2 company_handle2 : String) (salary2 equity2 : JSVal)
    (hfresh : ∀ r ∈ tbl.rows, ¬ (r.title = jsToLowerCase (jsTrim title) ∧
      r.company_handle = jsToLowerCase (jsTrim company_handle)))
    (hsame : jsToLowerCase (jsTrim title2) = jsToLowerCase (jsTrim title) ∧
      jsToLowerCase (jsTrim company_handle2) = jsToLowerCase (jsTrim company_handle)) :
    ∃ (job : JobRow) (tbl1 : JobsTable),
      Job.create tbl title salary equity company_handle = (.ok job, tbl1) ∧
      job.title = jsToLowerCase (jsTrim title) ∧
      job.company_handle = jsToLowerCase (jsTrim company_handle) ∧
      tbl1.rows = tbl.rows ++ [job] ∧
      (∃ message, Job.create tbl1 title2 salary2 equity2 company_handle2 =
        (.error (.BadRequestError message), tbl1)) ∧
      (∀ tbl2 : JobsTable,
        (∃ r ∈ tbl2.rows, r.title = jsToLowerCase (jsTrim title2) ∧
          r.company_handle = jsToLowerCase (jsTrim company_handle2)) →
        ∃ message, Job.create tbl2 title2 salary2 equity2 company_handle2 =
          (.error (.BadRequestError message), tbl2)) := by
  refine ⟨_, _, job_create_fresh tbl title salary equity company_handle hfresh, rfl, rfl, rfl,
    ?_, ?_⟩
  · exact ⟨_, job_create_duplicate _ title2 salary2 equity2 company_handle2
      ⟨_, List.mem_append_right _ (List.mem_singleton_self _), hsame.1.symm, hsame.2.symm⟩⟩
  · intro tbl2 hdup
    exact ⟨_, job_create_duplicate tbl2 title2 salary2 equity2 company_handle2 hdup⟩

/-- The pair "New"/"C1" is stored as "new"/"c1", then "NEW"/"c1" is rejected;
" ÉCOLE " is stored as "école", then "École" is rejected. -/
theorem job_create_normalizes_witness :
    (∀ r ∈ (⟨[], 1⟩ : JobsTable).rows, ¬ (r.title = jsToLowerCase (jsTrim "New") ∧
      r.company_handle = jsToLowerCase (jsTrim "C1"))) ∧
    (jsToLowerCase (jsTrim "NEW") = jsToLowerCase (jsTrim "New") ∧
      jsToLowerCase (jsTrim "c1") = jsToLowerCase (jsTrim "C1")) ∧
    Job.create ⟨[], 1⟩ "New" (.num (.fin 20000)) (.str "0.2") "C1" =
      (.ok ⟨1, "new", .num (.fin 20000), .str "0.2", "c1"⟩,
        ⟨[⟨1, "new", .num (.fin 20000), .str "0.2", "c1"⟩], 2⟩) ∧
    Job.create ⟨[⟨1, "new", .num (.fin 20000), .str "0.2", "c1"⟩], 2⟩ "NEW"
        (.num (.fin 20000)) (.str "0.2") "c1" =
      (.error (.BadRequestError "Duplicate Job: new from c1"),
        ⟨[⟨1, "new", .num (.fin 20000), .str "0.2", "c1"⟩], 2⟩) ∧
    Job.create ⟨[], 1⟩ " ÉCOLE " (.num (.fin 1)) .null "C1" =
      (.ok ⟨1, "école", .num (.fin 1), .null, "c1"⟩,
        ⟨[⟨1, "école", .num (.fin 1), .null, "c1"⟩], 2⟩) ∧
    Job.create ⟨[⟨1, "école", .num (.fin 1), .null, "c1"⟩], 2⟩ "École"
        (.num (.fin 1)) .null "c1" =
      (.error (.BadRequestError "Duplicate Job: école from c1"),
        ⟨[⟨1, "école", .num (.fin 1), .null, "c1"⟩], 2⟩) ∧
    jsToLowerCase "ΟΔΟΣ" = "οδος" ∧
    ∃ (job : JobRow) (tbl1 : JobsTable),
      Job.create ⟨[], 1⟩ "New" (.num (.fin 20000)) (.str "0.2") "C1" = (.ok job, tbl1) ∧
      job.title = jsToLowerCase (jsTrim "New") ∧
      job.company_handle = jsToLowerCase (jsTrim "C1") ∧
      tbl1.rows = (⟨[], 1⟩ : JobsTable).rows ++ [job] ∧
      (∃ message, Job.create tbl1 "NEW" (.num (.fin 20000)) (.str "0.2") "c1" =
        (.error (.BadRequestError message), tbl1)) ∧
      (∀ tbl2 : JobsTable,
        (∃ r ∈ tbl2.rows, r.title = jsToLowerCase (jsTrim "NEW") ∧
          r.company_handle = jsToLowerCase (jsTrim "c1")) →
        ∃ message, Job.create tbl2 "NEW" (.num (.fin 20000)) (.str "0.2") "c1" =
          (.error (.BadRequestError message), tbl2)) :=
  ⟨by decide, by decide, by decide, by decide, by decide, by decide, by decide,
    job_create_normalizes ⟨[], 1⟩ "New" "C1" (.num (.fin 20000)) (.str "0.2") "NEW" "c1"
      (.num (.fin 20000)) (.str "0.2") (by decide) (by decide)⟩

/-! ## `Job.update` and the key placeholder -/

/-- C11: for every id and every store, `Job.update(id, [])` throws the
`BadRequestError` "No data provided" and issues no statement, so nothing
reaches the store. -/
theorem job_update_no_data (db : Db) (id : JSVal) :
    (Job.update db id []).result = .error (.BadRequestError "No data provided") ∧
    (Job.update db id []).issued = [] :=
  ⟨rfl, rfl⟩

/-- Occurrence is transitive. -/
theorem containsText_trans {a b c : String} (hab : containsText a b)
    (hbc : containsText b c) : containsText a c := by
  obtain ⟨p1, q1, rfl⟩ := hab
  obtain ⟨p2, q2, rfl⟩ := hbc
  exact ⟨p2 ++ p1, q1 ++ q2, by simp [String.append_assoc]⟩

/-- Joining keeps every text that is already in the accumulator or still in
the list. -/
theorem containsText_intercalate_go (x sep : String) (l : List String) (acc : String)
    (h : containsText x acc ∨ x ∈ l) :
    containsText x (String.intercalate.go acc sep l) := by
  induction l generalizing acc with
  | nil =>
    rcases h with h | h
    · simpa [String.intercalate.go] using h
    · cases h
  | cons a as ih =>
    rw [String.intercalate.go]
    apply ih
    rcases h with h | h
    · left
      obtain ⟨p, q, rfl⟩ := h
      exact ⟨p, q ++ sep ++ a, by simp [String.append_assoc]⟩
    · rcases List.mem_cons.mp h with rfl | hm
      · left
        exact ⟨acc ++ sep, "", by simp⟩
      · right
        exact hm

/-- Every joined text occurs in the result of `intercalate`. -/
theorem containsText_intercalate (x sep : String) (l : List String) (h : x ∈ l) :
    containsText x (sep.intercalate l) := by
  cases l with
  | nil => cases h
  | cons a as =>
    rw [String.intercalate]
    apply containsText_intercalate_go
    rcases List.mem_cons.mp h with rfl | hm
    · left
      exact ⟨"", "", by simp⟩
    · right
      exact hm

/-- Every placeholder `$1 .. $|F|` occurs in the `SET` clause built for `F`. -/
theorem containsText_setCols (M : List (String × String)) (F : List (String × JSVal))
    (i : Nat) (h1 : 1 ≤ i) (hn : i ≤ F.length) :
    containsText ("$" ++ toString i) (", ".intercalate (setFragments M F 0)) := by
  obtain ⟨j, rfl⟩ : ∃ j, i = j + 1 := ⟨i - 1, by omega⟩
  have hj : j < F.length := by omega
  have hget : F[j]? = some (F[j].1, F[j].2) := by
    rw [List.getElem?_eq_getElem hj]
  have hfrag := setFragments_get M F 0 j _ _ hget
  rw [Nat.zero_add] at hfrag
  have hmem : ("\"" ++ ((M.lookup F[j].1).getD F[j].1) ++ "\"=$" ++ toString (j + 1))
      ∈ setFragments M F 0 := List.getElem?_mem hfrag
  refine containsText_trans ?_ (containsText_intercalate _ _ _ hmem)
  refine ⟨"\"" ++ ((M.lookup F[j].1).getD F[j].1) ++ "\"=", "", ?_⟩
  have e : "\"=$" ++ toString (j + 1) = "\"=" ++ ("$" ++ toString (j + 1)) := by
    rw [← String.append_assoc]
    exact congrArg (fun t => t ++ toString (j + 1)) (by decide)
  simp only [String.append_assoc, String.append_empty, e]

/-- C14: for every non-empty `data`, every key and every store,
`Company.update(key, data)` and `Job.update(key, data)` each issue exactly one
`UPDATE` whose `SET` clause is the one `sqlForPartialUpdate` returns for
`data`, whose `WHERE` placeholder is `$(n+1)` with `n` the number of fields, and
whose values are the `n` data values in order followed by the key: the list
has length `n+1`, position `n` (placeholder `$(n+1)`) holds the key, every
position `i < n` (placeholder `$(i+1)`) holds the value of field `i`, and every
placeholder `$1 .. $(n+1)` occurs in the statement text. -/
theorem update_key_placeholder (db : Db) (key : JSVal) (data : List (String × JSVal))
    (hd : data ≠ []) :
    ∃ (companyCols jobCols companyText jobText : String),
      sqlForPartialUpdate data [("numEmployees", "num_employees"), ("logoUrl", "logo_url")]
        = .ok (companyCols, data.map Prod.snd) ∧
      sqlForPartialUpdate data [("title", "title"), ("salary", "salary"), ("equity", "equity")]
        = .ok (jobCols, data.map Prod.snd) ∧
      companyText = "UPDATE companies \n                      SET " ++ companyCols ++
        " \n                      WHERE handle = " ++ ("$" ++ toString (data.length + 1)) ++
        " \n                      RETURNING handle, \n                                name, \n                                description, \n                                num_employees AS \"numEmployees\", \n                                logo_url AS \"logoUrl\"" ∧
      jobText = "\n    UPDATE jobs\n    SET " ++ jobCols ++ "\n    WHERE id = " ++
        ("$" ++ toString (data.length + 1)) ++
        "\n    RETURNING id, title, salary, equity, company_handle\n  " ∧
      (Company.update db key data).issued = [⟨companyText, data.map Prod.snd ++ [key]⟩] ∧
      (Job.update db key data).issued = [⟨jobText, data.map Prod.snd ++ [key]⟩] ∧
      (data.map Prod.snd ++ [key]).length = data.length + 1 ∧
      (data.map Prod.snd ++ [key])[data.length]? = some key ∧
      (∀ (i : Nat) (k : String) (v : JSVal), data[i]? = some (k, v) →
        (data.map Prod.snd ++ [key])[i]? = some v) ∧
      (∀ i : Nat, 1 ≤ i → i ≤ data.length + 1 →
        containsText ("$" ++ toString i) companyText ∧
        containsText ("$" ++ toString i) jobText) := by
  obtain ⟨p, rest, rfl⟩ : ∃ p rest, data = p :: rest := by
    cases data with
    | nil => exact absurd rfl hd
    | cons p rest => exact ⟨p, rest, rfl⟩
  refine ⟨_, _, _, _, rfl, rfl, rfl, rfl, ?_, ?_, by simp, ?_, ?_, ?_⟩
  · unfold Company.update
    simp only [sqlForPartialUpdate, List.length_map]
    split <;> rfl
  · unfold Job.update
    simp only [sqlForPartialUpdate, List.length_map, List.length_cons]
    rw [if_neg (by omega)]
    split <;> rfl
  · have hl : (List.map Prod.snd (p :: rest)).length = (p :: rest).length := by simp
    rw [← hl, List.getElem?_append_right (Nat.le_refl _)]
    simp
  · intro i k v h
    have hi : i < (p :: rest).length := by
      rcases Nat.lt_or_ge i (p :: rest).length with hlt | hge
      · exact hlt
      · rw [List.getElem?_eq_none hge] at h
        cases h
    rw [List.getElem?_append_left (by simpa using hi), List.getElem?_map, h]
    rfl
  · intro i h1 hn
    rcases Nat.lt_or_ge i ((p :: rest).length + 1) with hlt | hge
    · have hle : i ≤ (p :: rest).length := by omega
      exact ⟨containsText_trans (containsText_setCols _ (p :: rest) i h1 hle)
          ⟨_, _, by simp only [String.append_assoc]; rfl⟩,
        containsText_trans (containsText_setCols _ (p :: rest) i h1 hle)
          ⟨_, _, by simp only [String.append_assoc]; rfl⟩⟩
    · have hi : i = (p :: rest).length + 1 := by omega
      subst hi
      exact ⟨⟨_, _, rfl⟩, ⟨_, _, rfl⟩⟩

/-- The fields `title`, `salary` and the key 3: both statements end in the
placeholder `$3`, bound to the key. -/
theorem update_key_placeholder_witness :
    ([("title", JSVal.str "x"), ("salary", JSVal.num (.fin 5))] : List (String × JSVal)) ≠ [] ∧
    (Job.update sampleStore (.num (.fin 3))
        [("title", .str "x"), ("salary", .num (.fin 5))]).issued =
      [⟨"\n    UPDATE jobs\n    SET \"title\"=$1, \"salary\"=$2\n    WHERE id = $3\n    RETURNING id, title, salary, equity, company_handle\n  ",
        [.str "x", .num (.fin 5), .num (.fin 3)]⟩] ∧
    ∃ companyText jobText : String,
      (Company.update sampleStore (.num (.fin 3))
          [("title", .str "x"), ("salary", .num (.fin 5))]).issued =
        [⟨companyText, [.str "x", .num (.fin 5)] ++ [.num (.fin 3)]⟩] ∧
      (Job.update sampleStore (.num (.fin 3))
          [("title", .str "x"), ("salary", .num (.fin 5))]).issued =
        [⟨jobText, [.str "x", .num (.fin 5)] ++ [.num (.fin 3)]⟩] ∧
      containsText ("$" ++ toString 3) companyText ∧
      containsText ("$" ++ toString 3) jobText :=
  ⟨by decide, by decide,
    match update_key_placeholder sampleStore (.num (.fin 3))
        [("title", .str "x"), ("salary", .num (.fin 5))] (by decide) with
    | ⟨_, _, companyText, jobText, _, _, _, _, hc, hj, _, _, _, hall⟩ =>
      ⟨companyText, jobText, hc, hj, hall 3 (by decide) (by decide)⟩⟩

/-! ## `Company.get` -/

/-- C12, evaluated on `acmeStore`: the route handler and `Company.get` run the
lookup of lines 172-189, so the handle `c1` of the stored company is not found,
while the lookup of lines 68-98 returns that company with its jobs ordered by
id; and the argument `acme`, which is no handle, returns the company without a
`jobs` property. -/
theorem company_get_handle_shadowed :
    getCompany acmeStore "c1" = .error (.NotFoundError "No company: c1") ∧
    Company.get acmeStore "c1" = .error (.NotFoundError "No company: c1") ∧
    Company.get_at68 acmeStore "c1" =
      .ok ⟨⟨"c1", "Acme", "Desc1", .num (.fin 1), .str "http://c1.img"⟩,
        some [⟨1, "t1", .num (.fin 100), .null⟩, ⟨2, "t2", .num (.fin 200), .str "0.2"⟩]⟩ ∧
    getCompany acmeStore "acme" =
      .ok ⟨⟨"c1", "Acme", "Desc1", .num (.fin 1), .str "http://c1.img"⟩, none⟩ := by
  decide

/-- C13, evaluated on `acmeStore`: the stored name `Acme` is found under the
argument `acme` only; the arguments `Acme` (the name itself) and `ACME`, equal to
it up to letter case, throw `NotFoundError`. -/
theorem company_get_name_case :
    Company.get acmeStore "Acme" = .error (.NotFoundError "No company: Acme") ∧
    Company.get acmeStore "ACME" = .error (.NotFoundError "No company: ACME") ∧
    Company.get acmeStore "acme" =
      .ok ⟨⟨"c1", "Acme", "Desc1", .num (.fin 1), .str "http://c1.img"⟩, none⟩ := by
  decide

/-! ## Token separation of `ORDER BY` -/

/-- `ORDER BY` comes right after white space exactly when `min` is the only
supplied filter: its fragment alone ends in a blank. -/
theorem company_built_separated (min max name : JSVal) :
    precededBySpace "ORDER BY" (Company.filterBy.built min max name).text = true ↔
      (min ≠ .undefined ∧ max = .undefined ∧ name = .undefined) := by
  by_cases h1 : min = .undefined <;> by_cases h2 : max = .undefined <;>
    by_cases h3 : name = .undefined <;>
    simp only [Company.filterBy.built, Company.filterBy.handleMin, Company.filterBy.handleMax,
      Company.filterBy.handleName, Company.filterBy.addOrderBy,
      h1, h2, h3, ne_eq, not_true_eq_false, not_false_eq_true,
      if_true, if_false, List.nil_append, List.append_nil, List.length_append,
      List.length_cons, List.length_nil, List.cons_append] <;> decide

/-- C15, evaluated at three accepted calls: with only `max = 5` the text ends
in `$1ORDER BY num_employees`, with only `name = "an"` in `$1ORDER BY name`, with
no filter in `1=1ORDER BY num_employees`; in none of them is `ORDER BY` preceded
by white space. -/
theorem company_filterBy_order_by_abuts (db : Db) :
    (Company.filterBy db .undefined (.num (.fin 5)) .undefined).issued =
      [⟨"\n    SELECT \n      handle,\n      name,\n      description,\n      num_employees AS \"numEmployees\",\n      logo_url AS \"logoUrl\"\n    FROM companies\n    WHERE 1=1 AND num_employees <= $1ORDER BY num_employees",
        [.num (.fin 5)]⟩] ∧
    (Company.filterBy db .undefined .undefined (.str "an")).issued =
      [⟨"\n    SELECT \n      handle,\n      name,\n      description,\n      num_employees AS \"numEmployees\",\n      logo_url AS \"logoUrl\"\n    FROM companies\n    WHERE 1=1 AND name ILIKE $1ORDER BY name",
        [.str "an%"]⟩] ∧
    (Company.filterBy db .undefined .undefined .undefined).issued =
      [⟨"\n    SELECT \n      handle,\n      name,\n      description,\n      num_employees AS \"numEmployees\",\n      logo_url AS \"logoUrl\"\n    FROM companies\n    WHERE 1=1ORDER BY num_employees",
        []⟩] ∧
    (Company.filterBy db .undefined (.num (.fin 5)) .undefined).issued.map
      (fun q => precededBySpace "ORDER BY" q.text) = [false] ∧
    (Company.filterBy db .undefined .undefined (.str "an")).issued.map
      (fun q => precededBySpace "ORDER BY" q.text) = [false] ∧
    (Company.filterBy db .undefined .undefined .undefined).issued.map
      (fun q => precededBySpace "ORDER BY" q.text) = [false] := by
  rw [company_filterBy_issued db _ _ _ (by decide), company_filterBy_issued db _ _ _ (by decide),
    company_filterBy_issued db _ _ _ (by decide)]
  decide

end Jobly
